import Mathlib

/-!
# go-breeders: fixture and relational repositories, services and handlers

A shallow embedding of the three domains of the repository (`internal/dog`,
`internal/cat`, `internal/breeder`), of the pool set-up of `cmd/web/db.go` and
of the abstract factory of the package `pets`.

Conventions of the embedding:

* a Go `int` is an `Int` (only comparisons and small literals occur);
* a Go `error` is an `Option Error`, `none` standing for `nil`;
* a pointer that may be `nil` (`*Breed`, `*Dog`, ...) is an `Option`;
* a slice `[]*T` is a `List T`; the records behind the pointers are fresh on
  every call, so a list of values carries all the information;
* a method with receiver `m` takes `m` as its first argument; where the
  interface is used polymorphically (the services) a method is a state
  transformer `σ → result × σ`, the state `σ` standing for everything the
  implementation may touch.
-/

set_option linter.dupNamespace false

/-- Go `error` values that occur in the program. `ErrNoRows` is
`sql.ErrNoRows`; every other error is known only by its message. -/
inductive Error where
  | ErrNoRows
  | other (msg : String)
  deriving DecidableEq, Repr

/-- The method `Error()` of a Go error. -/
def Error.Error : Error → String
  | .ErrNoRows => "sql: no rows in result set"
  | .other msg => msg

/-- A `time.Time` in UTC, by its calendar fields. -/
structure Time where
  year : Int
  month : Nat
  day : Nat
  hour : Nat
  minute : Nat
  second : Nat
  nsec : Nat
  deriving DecidableEq, Repr

/-- The call `time.Date(year, month, day, hour, min, sec, nsec, time.UTC)` for
arguments that are already in range (all the calls of the program are). -/
def Time.Date (year : Int) (month day hour minute second nsec : Nat) : Time :=
  { year := year, month := month, day := day, hour := hour, minute := minute,
    second := second, nsec := nsec }

/-- The zero value of `time.Time`: January 1, year 1, 00:00:00 UTC. -/
def Time.zero : Time := Time.Date 1 1 1 0 0 0 0

/-- Lexicographic `<=` on sequences of character codes. -/
def codesLe : List Nat → List Nat → Bool
  | [], _ => true
  | _ :: _, [] => false
  | x :: xs, y :: ys => if x < y then true else if y < x then false else codesLe xs ys

/-- Go's `a <= b` on strings. Go compares the bytes of the two strings
lexicographically; on valid UTF-8 that is the lexicographic order of the code
points, which is what is computed here. -/
def strLe (a b : String) : Bool :=
  codesLe (a.data.map Char.toNat) (b.data.map Char.toNat)

/-- Ascending order of a list of names: in every pair of adjacent names the
earlier one is `<=` the later one. -/
def ascendingNames : List String → Bool
  | a :: b :: rest => strLe a b && ascendingNames (b :: rest)
  | _ => true

/-- The loop shared by the five fixture getters:
`for _, x := range xs { if x.ID == id { return x, nil } }; return nil, nil`. -/
def rangeFindID {α : Type} (getID : α → Int) : List α → Int → Option α × Option Error
  | [], _ => (none, none)
  | x :: rest, id => if getID x == id then (some x, none) else rangeFindID getID rest id

namespace dog

/-- The struct `Breed` of `internal/dog/model.go`. -/
structure Breed where
  ID : Int
  Breed : String
  WeightLowLbs : Int
  WeightHighLbs : Int
  AverageWeight : Int
  Lifespan : Int
  Details : String
  AlternateNames : String
  GeographicOrigin : String
  deriving DecidableEq, Repr

/-- The zero value of `Breed`. -/
def Breed.zero : dog.Breed :=
  { ID := 0, Breed := "", WeightLowLbs := 0, WeightHighLbs := 0, AverageWeight := 0,
    Lifespan := 0, Details := "", AlternateNames := "", GeographicOrigin := "" }

/-- The struct `Dog` of `internal/dog/model.go`. A field left out of a
composite literal has its zero value, which is what the defaults say. -/
structure Dog where
  ID : Int := 0
  DogName : String := ""
  BreedID : Int := 0
  BreederID : Int := 0
  Color : String := ""
  DateOfBirth : Time := Time.zero
  SpayedOrNeutered : Int := 0
  Description : String := ""
  Weight : Int := 0
  Breed : dog.Breed := Breed.zero
  deriving DecidableEq, Repr

/-- The struct `MockRepository struct{}`: it has no field. -/
structure MockRepository where
  deriving DecidableEq, Repr

/-- Go `MockRepository.AllBreeds` of `internal/dog/mock_repository.go`. -/
def MockRepository.AllBreeds (_m : MockRepository) : List Breed × Option Error :=
  ([ { ID := 1, Breed := "Chihuahua", WeightLowLbs := 2, WeightHighLbs := 6,
       AverageWeight := 4, Lifespan := 15,
       Details := "Small, alert dog with sassy personality",
       AlternateNames := "", GeographicOrigin := "Mexico" },
     { ID := 2, Breed := "German Shepherd", WeightLowLbs := 50, WeightHighLbs := 90,
       AverageWeight := 70, Lifespan := 12,
       Details := "Intelligent, loyal working dog",
       AlternateNames := "Alsatian", GeographicOrigin := "Germany" },
     { ID := 3, Breed := "Labrador Retriever", WeightLowLbs := 55, WeightHighLbs := 80,
       AverageWeight := 68, Lifespan := 12,
       Details := "Friendly, outgoing, and active",
       AlternateNames := "Lab", GeographicOrigin := "Canada" } ], none)

/-- Go `MockRepository.GetBreedByID`: the error of `AllBreeds` is dropped. -/
def MockRepository.GetBreedByID (m : MockRepository) (id : Int) :
    Option Breed × Option Error :=
  let breeds := (m.AllBreeds).1
  rangeFindID (fun b => b.ID) breeds id

/-- Go `MockRepository.AllDogs` of `internal/dog/mock_repository.go`. -/
def MockRepository.AllDogs (_m : MockRepository) : List Dog × Option Error :=
  ([ { ID := 1, DogName := "Max", BreedID := 2, BreederID := 1,
       Color := "Black and Tan", DateOfBirth := Time.Date 2020 1 15 0 0 0 0,
       SpayedOrNeutered := 0, Description := "Friendly German Shepherd", Weight := 75 },
     { ID := 2, DogName := "Bella", BreedID := 1, BreederID := 1,
       Color := "Tan", DateOfBirth := Time.Date 2021 3 20 0 0 0 0,
       SpayedOrNeutered := 1, Description := "Small but mighty Chihuahua", Weight := 5 } ],
   none)

/-- Go `MockRepository.GetDogByID`. -/
def MockRepository.GetDogByID (m : MockRepository) (id : Int) :
    Option Dog × Option Error :=
  let dogs := (m.AllDogs).1
  rangeFindID (fun d => d.ID) dogs id

/-- Go `MockRepository.InsertDog`: the argument is not looked at. -/
def MockRepository.InsertDog (_m : MockRepository) (_dog : Option Dog) : Int × Option Error :=
  (999, none)

/-- Go `MockRepository.UpdateDog`. -/
def MockRepository.UpdateDog (_m : MockRepository) (_dog : Option Dog) : Option Error :=
  none

/-- Go `MockRepository.DeleteDog`. -/
def MockRepository.DeleteDog (_m : MockRepository) (_id : Int) : Option Error :=
  none

/-- The interface `Repository` of `internal/dog/repository.go`. A method is a
state transformer over the implementation's state `σ`. -/
structure Repository (σ : Type) where
  AllBreeds : σ → (List Breed × Option Error) × σ
  GetBreedByID : Int → σ → (Option Breed × Option Error) × σ
  AllDogs : σ → (List Dog × Option Error) × σ
  GetDogByID : Int → σ → (Option Dog × Option Error) × σ
  InsertDog : Option Dog → σ → (Int × Option Error) × σ
  UpdateDog : Option Dog → σ → Option Error × σ
  DeleteDog : Int → σ → Option Error × σ

/-- Go `NewMockRepository`: the fixture as a `Repository`. No method body assigns
to the receiver, so every method hands the receiver back as it got it. -/
def NewMockRepository : Repository MockRepository :=
  { AllBreeds := fun m => (m.AllBreeds, m)
    GetBreedByID := fun id m => (m.GetBreedByID id, m)
    AllDogs := fun m => (m.AllDogs, m)
    GetDogByID := fun id m => (m.GetDogByID id, m)
    InsertDog := fun d m => (m.InsertDog d, m)
    UpdateDog := fun d m => (m.UpdateDog d, m)
    DeleteDog := fun id m => (m.DeleteDog id, m) }

/-- The struct `Service` of `internal/dog/service.go`. -/
structure Service (σ : Type) where
  repo : Repository σ

/-- Go `NewService`. -/
def NewService {σ : Type} (repo : Repository σ) : Service σ := { repo := repo }

/-- Go `Service.GetAllBreeds`. -/
def Service.GetAllBreeds {σ : Type} (s : Service σ) : σ → (List Breed × Option Error) × σ :=
  s.repo.AllBreeds

/-- Go `Service.GetBreedByID`. -/
def Service.GetBreedByID {σ : Type} (s : Service σ) (id : Int) :
    σ → (Option Breed × Option Error) × σ :=
  s.repo.GetBreedByID id

/-- Go `Service.GetAllDogs`. -/
def Service.GetAllDogs {σ : Type} (s : Service σ) : σ → (List Dog × Option Error) × σ :=
  s.repo.AllDogs

/-- Go `Service.GetDogByID`. -/
def Service.GetDogByID {σ : Type} (s : Service σ) (id : Int) :
    σ → (Option Dog × Option Error) × σ :=
  s.repo.GetDogByID id

/-- Go `Service.CreateDog`. -/
def Service.CreateDog {σ : Type} (s : Service σ) (dog : Option Dog) :
    σ → (Int × Option Error) × σ :=
  s.repo.InsertDog dog

/-- Go `Service.UpdateDog`. -/
def Service.UpdateDog {σ : Type} (s : Service σ) (dog : Option Dog) : σ → Option Error × σ :=
  s.repo.UpdateDog dog

/-- Go `Service.DeleteDog`. -/
def Service.DeleteDog {σ : Type} (s : Service σ) (id : Int) : σ → Option Error × σ :=
  s.repo.DeleteDog id

end dog

namespace cat

/-- Modelled from the spec: the struct `Breed` of the cat domain, whose
declaration (`internal/cat/model.go`) is not among the sources. The fields are
the ones `internal/cat/mock_repository.go` and `mysql_repository.go` use, the
same as the dog breed's. -/
structure Breed where
  ID : Int
  Breed : String
  WeightLowLbs : Int
  WeightHighLbs : Int
  AverageWeight : Int
  Lifespan : Int
  Details : String
  AlternateNames : String
  GeographicOrigin : String
  deriving DecidableEq, Repr

/-- Modelled from the spec: the struct `Cat`, whose declaration
(`internal/cat/model.go`) is not among the sources. The fields are the ones
`internal/cat/mock_repository.go` and `mysql_repository.go` use. -/
structure Cat where
  ID : Int := 0
  CatName : String := ""
  BreedID : Int := 0
  BreederID : Int := 0
  Color : String := ""
  DateOfBirth : Time := Time.zero
  SpayedOrNeutered : Int := 0
  Description : String := ""
  Weight : Int := 0
  deriving DecidableEq, Repr

/-- The struct `MockRepository struct{}`: it has no field. -/
structure MockRepository where
  deriving DecidableEq, Repr

/-- Go `MockRepository.AllBreeds` of `internal/cat/mock_repository.go`. -/
def MockRepository.AllBreeds (_m : MockRepository) : List Breed × Option Error :=
  ([ { ID := 1, Breed := "Persian", WeightLowLbs := 7, WeightHighLbs := 12,
       AverageWeight := 10, Lifespan := 15,
       Details := "Long-haired, gentle cat",
       AlternateNames := "", GeographicOrigin := "Iran" },
     { ID := 2, Breed := "Siamese", WeightLowLbs := 8, WeightHighLbs := 12,
       AverageWeight := 10, Lifespan := 15,
       Details := "Vocal, social cat",
       AlternateNames := "", GeographicOrigin := "Thailand" } ], none)

/-- Go `MockRepository.GetBreedByID`: the error of `AllBreeds` is dropped. -/
def MockRepository.GetBreedByID (m : MockRepository) (id : Int) :
    Option Breed × Option Error :=
  let breeds := (m.AllBreeds).1
  rangeFindID (fun b => b.ID) breeds id

/-- Go `MockRepository.AllCats` of `internal/cat/mock_repository.go`. -/
def MockRepository.AllCats (_m : MockRepository) : List Cat × Option Error :=
  ([ { ID := 1, CatName := "Whiskers", BreedID := 1, BreederID := 1,
       Color := "Orange Tabby", DateOfBirth := Time.Date 2021 5 10 0 0 0 0,
       SpayedOrNeutered := 1, Description := "Playful tabby cat", Weight := 12 },
     { ID := 2, CatName := "Luna", BreedID := 2, BreederID := 1,
       Color := "Seal Point", DateOfBirth := Time.Date 2020 8 15 0 0 0 0,
       SpayedOrNeutered := 1, Description := "Talkative Siamese", Weight := 10 } ],
   none)

/-- Go `MockRepository.GetCatByID`. -/
def MockRepository.GetCatByID (m : MockRepository) (id : Int) :
    Option Cat × Option Error :=
  let cats := (m.AllCats).1
  rangeFindID (fun c => c.ID) cats id

/-- Go `MockRepository.InsertCat`: the argument is not looked at. -/
def MockRepository.InsertCat (_m : MockRepository) (_cat : Option Cat) : Int × Option Error :=
  (999, none)

/-- Go `MockRepository.UpdateCat`. -/
def MockRepository.UpdateCat (_m : MockRepository) (_cat : Option Cat) : Option Error :=
  none

/-- Go `MockRepository.DeleteCat`. -/
def MockRepository.DeleteCat (_m : MockRepository) (_id : Int) : Option Error :=
  none

/-- The interface `Repository` of `internal/cat/repository.go`. -/
structure Repository (σ : Type) where
  AllBreeds : σ → (List Breed × Option Error) × σ
  GetBreedByID : Int → σ → (Option Breed × Option Error) × σ
  AllCats : σ → (List Cat × Option Error) × σ
  GetCatByID : Int → σ → (Option Cat × Option Error) × σ
  InsertCat : Option Cat → σ → (Int × Option Error) × σ
  UpdateCat : Option Cat → σ → Option Error × σ
  DeleteCat : Int → σ → Option Error × σ

/-- Go `NewMockRepository`: the fixture as a `Repository`. No method body assigns
to the receiver, so every method hands the receiver back as it got it. -/
def NewMockRepository : Repository MockRepository :=
  { AllBreeds := fun m => (m.AllBreeds, m)
    GetBreedByID := fun id m => (m.GetBreedByID id, m)
    AllCats := fun m => (m.AllCats, m)
    GetCatByID := fun id m => (m.GetCatByID id, m)
    InsertCat := fun c m => (m.InsertCat c, m)
    UpdateCat := fun c m => (m.UpdateCat c, m)
    DeleteCat := fun id m => (m.DeleteCat id, m) }

/-- The struct `Service` of `internal/cat/service.go`. -/
structure Service (σ : Type) where
  repo : Repository σ

/-- Go `NewService`. -/
def NewService {σ : Type} (repo : Repository σ) : Service σ := { repo := repo }

/-- Go `Service.GetAllBreeds`. -/
def Service.GetAllBreeds {σ : Type} (s : Service σ) : σ → (List Breed × Option Error) × σ :=
  s.repo.AllBreeds

/-- Go `Service.GetBreedByID`. -/
def Service.GetBreedByID {σ : Type} (s : Service σ) (id : Int) :
    σ → (Option Breed × Option Error) × σ :=
  s.repo.GetBreedByID id

/-- Go `Service.GetAllCats`. -/
def Service.GetAllCats {σ : Type} (s : Service σ) : σ → (List Cat × Option Error) × σ :=
  s.repo.AllCats

/-- Go `Service.GetCatByID`. -/
def Service.GetCatByID {σ : Type} (s : Service σ) (id : Int) :
    σ → (Option Cat × Option Error) × σ :=
  s.repo.GetCatByID id

/-- Go `Service.CreateCat`. -/
def Service.CreateCat {σ : Type} (s : Service σ) (cat : Option Cat) :
    σ → (Int × Option Error) × σ :=
  s.repo.InsertCat cat

/-- Go `Service.UpdateCat`. -/
def Service.UpdateCat {σ : Type} (s : Service σ) (cat : Option Cat) : σ → Option Error × σ :=
  s.repo.UpdateCat cat

/-- Go `Service.DeleteCat`. -/
def Service.DeleteCat {σ : Type} (s : Service σ) (id : Int) : σ → Option Error × σ :=
  s.repo.DeleteCat id

end cat

namespace breeder

/-- The struct `Breeder` of `internal/breeder/model.go`. -/
structure Breeder where
  ID : Int
  BreederName : String
  Address : String
  City : String
  ProvState : String
  Country : String
  Zip : String
  Phone : String
  Email : String
  Active : Int
  deriving DecidableEq, Repr

/-- The struct `MockRepository struct{}`: it has no field. -/
structure MockRepository where
  deriving DecidableEq, Repr

/-- Go `MockRepository.AllBreeders` of `internal/breeder/mock_repository.go`. -/
def MockRepository.AllBreeders (_m : MockRepository) : List Breeder × Option Error :=
  ([ { ID := 1, BreederName := "Happy Paws Breeders", Address := "123 Main Street",
       City := "Portland", ProvState := "OR", Country := "USA", Zip := "97201",
       Phone := "555-1234", Email := "info@happypaws.com", Active := 1 },
     { ID := 2, BreederName := "Furry Friends Inc", Address := "456 Oak Avenue",
       City := "Seattle", ProvState := "WA", Country := "USA", Zip := "98101",
       Phone := "555-5678", Email := "contact@furryfriends.com", Active := 1 } ],
   none)

/-- Go `MockRepository.GetBreederByID`: the error of `AllBreeders` is dropped. -/
def MockRepository.GetBreederByID (m : MockRepository) (id : Int) :
    Option Breeder × Option Error :=
  let breeders := (m.AllBreeders).1
  rangeFindID (fun b => b.ID) breeders id

/-- Go `MockRepository.InsertBreeder`: the argument is not looked at. -/
def MockRepository.InsertBreeder (_m : MockRepository) (_breeder : Option Breeder) :
    Int × Option Error :=
  (999, none)

/-- Go `MockRepository.UpdateBreeder`. -/
def MockRepository.UpdateBreeder (_m : MockRepository) (_breeder : Option Breeder) :
    Option Error :=
  none

/-- Go `MockRepository.DeleteBreeder`. -/
def MockRepository.DeleteBreeder (_m : MockRepository) (_id : Int) : Option Error :=
  none

/-- The interface `Repository` of `internal/breeder/repository.go`. -/
structure Repository (σ : Type) where
  AllBreeders : σ → (List Breeder × Option Error) × σ
  GetBreederByID : Int → σ → (Option Breeder × Option Error) × σ
  InsertBreeder : Option Breeder → σ → (Int × Option Error) × σ
  UpdateBreeder : Option Breeder → σ → Option Error × σ
  DeleteBreeder : Int → σ → Option Error × σ

/-- Go `NewMockRepository`: the fixture as a `Repository`. No method body assigns
to the receiver, so every method hands the receiver back as it got it. -/
def NewMockRepository : Repository MockRepository :=
  { AllBreeders := fun m => (m.AllBreeders, m)
    GetBreederByID := fun id m => (m.GetBreederByID id, m)
    InsertBreeder := fun b m => (m.InsertBreeder b, m)
    UpdateBreeder := fun b m => (m.UpdateBreeder b, m)
    DeleteBreeder := fun id m => (m.DeleteBreeder id, m) }

/-- The struct `Service` of `internal/breeder/service.go`. -/
structure Service (σ : Type) where
  repo : Repository σ

/-- Go `NewService`. -/
def NewService {σ : Type} (repo : Repository σ) : Service σ := { repo := repo }

/-- Go `Service.GetAllBreeders`. -/
def Service.GetAllBreeders {σ : Type} (s : Service σ) :
    σ → (List Breeder × Option Error) × σ :=
  s.repo.AllBreeders

/-- Go `Service.GetBreederByID`. -/
def Service.GetBreederByID {σ : Type} (s : Service σ) (id : Int) :
    σ → (Option Breeder × Option Error) × σ :=
  s.repo.GetBreederByID id

/-- Go `Service.CreateBreeder`. -/
def Service.CreateBreeder {σ : Type} (s : Service σ) (breeder : Option Breeder) :
    σ → (Int × Option Error) × σ :=
  s.repo.InsertBreeder breeder

/-- Go `Service.UpdateBreeder`. -/
def Service.UpdateBreeder {σ : Type} (s : Service σ) (breeder : Option Breeder) :
    σ → Option Error × σ :=
  s.repo.UpdateBreeder breeder

/-- Go `Service.DeleteBreeder`. -/
def Service.DeleteBreeder {σ : Type} (s : Service σ) (id : Int) : σ → Option Error × σ :=
  s.repo.DeleteBreeder id

end breeder

/-! ## The relational backend: what the program sees of `database/sql` -/

/-- A value bound to a `?` of a statement, or held by a column of a result
row. `int n` is a column that converts to the integer `n`, `str s` one that
converts to the string `s`, `time t` one that converts to the time `t`. -/
inductive SqlValue where
  | int (n : Int)
  | str (s : String)
  | time (t : Time)
  | null
  deriving DecidableEq, Repr

/-- The result set of `QueryContext`: the rows the iteration delivers and the
final `rows.Err()`. -/
structure Rows where
  rows : List (List SqlValue)
  err : Option Error

/-- The `sql.Result` of `ExecContext`. -/
structure Result where
  LastInsertId : Except Error Int
  RowsAffected : Except Error Int

/-- The handle `*sql.DB`, by the three methods the repositories call. Each
takes the statement text and the bound parameters; the context carries only
the three-second deadline, whose expiry is one of the errors a call may
return. `QueryRowContext` answers with the error of the query, with `none`
when the result set is empty, or with the columns of the first row. -/
structure DB where
  QueryContext : String → List SqlValue → Except Error Rows
  QueryRowContext : String → List SqlValue → Except Error (Option (List SqlValue))
  ExecContext : String → List SqlValue → Except Error Result

/-- Scan of one column into an `int` destination. -/
def scanInt (column : Nat) : SqlValue → Except Error Int
  | .int n => .ok n
  | _ => .error (.other ("sql: Scan error on column index " ++ toString column))

/-- Scan of one column into a `string` destination. -/
def scanString (column : Nat) : SqlValue → Except Error String
  | .str s => .ok s
  | _ => .error (.other ("sql: Scan error on column index " ++ toString column))

/-- Scan of one column into a `time.Time` destination. -/
def scanTime (column : Nat) : SqlValue → Except Error Time
  | .time t => .ok t
  | _ => .error (.other ("sql: Scan error on column index " ++ toString column))

/-- The method `(*sql.Row).Scan` on the row of `QueryRowContext`: the error of
the query if there is one, `sql.ErrNoRows` if the result set is empty, else
the scan of the first row into the destinations. -/
def rowScan {α : Type} (row : Except Error (Option (List SqlValue)))
    (scan : List SqlValue → Except Error α) : Except Error α :=
  match row with
  | .error e => .error e
  | .ok none => .error Error.ErrNoRows
  | .ok (some cols) => scan cols

/-- A storage handle over empty tables: a query delivers no row, a single-row
query finds no row, a statement affects no row. -/
def emptyDB : DB :=
  { QueryContext := fun _ _ => .ok { rows := [], err := none }
    QueryRowContext := fun _ _ => .ok none
    ExecContext := fun _ _ => .ok { LastInsertId := .ok 0, RowsAffected := .ok 0 } }

namespace dog

/-- The struct `MySQLRepository` of `internal/dog/mysql_repository.go`. -/
structure MySQLRepository where
  DB : DB

/-- The `rows.Scan(&b.ID, &b.Breed, ...)` of a breed row: nine destinations. -/
def scanBreed : List SqlValue → Except Error Breed
  | [c0, c1, c2, c3, c4, c5, c6, c7, c8] => do
    let id ← scanInt 0 c0
    let breed ← scanString 1 c1
    let low ← scanInt 2 c2
    let high ← scanInt 3 c3
    let avg ← scanInt 4 c4
    let lifespan ← scanInt 5 c5
    let details ← scanString 6 c6
    let alternate ← scanString 7 c7
    let origin ← scanString 8 c8
    pure { ID := id, Breed := breed, WeightLowLbs := low, WeightHighLbs := high,
           AverageWeight := avg, Lifespan := lifespan, Details := details,
           AlternateNames := alternate, GeographicOrigin := origin }
  | _ => .error (.other "sql: expected 9 destination arguments in Scan")

/-- The `rows.Scan(&d.ID, &d.DogName, ...)` of a dog row: nine destinations;
the field `Breed` of the record keeps its zero value. -/
def scanDog : List SqlValue → Except Error Dog
  | [c0, c1, c2, c3, c4, c5, c6, c7, c8] => do
    let id ← scanInt 0 c0
    let name ← scanString 1 c1
    let breedID ← scanInt 2 c2
    let breederID ← scanInt 3 c3
    let color ← scanString 4 c4
    let dob ← scanTime 5 c5
    let spayed ← scanInt 6 c6
    let description ← scanString 7 c7
    let weight ← scanInt 8 c8
    pure { ID := id, DogName := name, BreedID := breedID, BreederID := breederID,
           Color := color, DateOfBirth := dob, SpayedOrNeutered := spayed,
           Description := description, Weight := weight }
  | _ => .error (.other "sql: expected 9 destination arguments in Scan")

/-- The statement of `MySQLRepository.GetBreedByID`. -/
def getBreedByIDQuery : String :=
  "SELECT id, breed, weight_low_lbs, weight_high_lbs,\n\t\t\tCAST(((weight_low_lbs + weight_high_lbs) / 2) AS unsigned) AS average_weight,\n\t\t\tlifespan, COALESCE(details, ''),\n\t\t\tCOALESCE(alternate_names, ''), COALESCE(geographic_origin, '')\n\t\t\tFROM dog_breeds WHERE id = ?"

/-- The statement of `MySQLRepository.GetDogByID`. -/
def getDogByIDQuery : String :=
  "SELECT id, dog_name, breed_id, breeder_id, color,\n\t\t\tdate_of_birth, spayed_neutered, description, weight\n\t\t\tFROM dogs WHERE id = ?"

/-- Go `MySQLRepository.GetBreedByID`: a non-nil error of the scan is returned
with a nil breed, else the scanned breed with a nil error. -/
def MySQLRepository.GetBreedByID (r : MySQLRepository) (id : Int) :
    Option Breed × Option Error :=
  match rowScan (r.DB.QueryRowContext getBreedByIDQuery [.int id]) scanBreed with
  | .error err => (none, some err)
  | .ok breed => (some breed, none)

/-- Go `MySQLRepository.GetDogByID`. -/
def MySQLRepository.GetDogByID (r : MySQLRepository) (id : Int) :
    Option Dog × Option Error :=
  match rowScan (r.DB.QueryRowContext getDogByIDQuery [.int id]) scanDog with
  | .error err => (none, some err)
  | .ok dog => (some dog, none)

end dog

namespace cat

/-- The struct `MySQLRepository` of `internal/cat/mysql_repository.go`. -/
structure MySQLRepository where
  DB : DB

/-- The `rows.Scan(&b.ID, &b.Breed, ...)` of a breed row: nine destinations. -/
def scanBreed : List SqlValue → Except Error Breed
  | [c0, c1, c2, c3, c4, c5, c6, c7, c8] => do
    let id ← scanInt 0 c0
    let breed ← scanString 1 c1
    let low ← scanInt 2 c2
    let high ← scanInt 3 c3
    let avg ← scanInt 4 c4
    let lifespan ← scanInt 5 c5
    let details ← scanString 6 c6
    let alternate ← scanString 7 c7
    let origin ← scanString 8 c8
    pure { ID := id, Breed := breed, WeightLowLbs := low, WeightHighLbs := high,
           AverageWeight := avg, Lifespan := lifespan, Details := details,
           AlternateNames := alternate, GeographicOrigin := origin }
  | _ => .error (.other "sql: expected 9 destination arguments in Scan")

/-- The `rows.Scan(&c.ID, &c.CatName, ...)` of a cat row: nine destinations. -/
def scanCat : List SqlValue → Except Error Cat
  | [c0, c1, c2, c3, c4, c5, c6, c7, c8] => do
    let id ← scanInt 0 c0
    let name ← scanString 1 c1
    let breedID ← scanInt 2 c2
    let breederID ← scanInt 3 c3
    let color ← scanString 4 c4
    let dob ← scanTime 5 c5
    let spayed ← scanInt 6 c6
    let description ← scanString 7 c7
    let weight ← scanInt 8 c8
    pure { ID := id, CatName := name, BreedID := breedID, BreederID := breederID,
           Color := color, DateOfBirth := dob, SpayedOrNeutered := spayed,
           Description := description, Weight := weight }
  | _ => .error (.other "sql: expected 9 destination arguments in Scan")

/-- The statement of `MySQLRepository.GetBreedByID`. -/
def getBreedByIDQuery : String :=
  "SELECT id, breed, weight_low_lbs, weight_high_lbs,\n\t\t\tCAST(((weight_low_lbs + weight_high_lbs) / 2) AS unsigned) AS average_weight,\n\t\t\tlifespan, COALESCE(details, ''),\n\t\t\tCOALESCE(alternate_names, ''), COALESCE(geographic_origin, '')\n\t\t\tFROM cat_breeds WHERE id = ?"

/-- The statement of `MySQLRepository.GetCatByID`. -/
def getCatByIDQuery : String :=
  "SELECT id, cat_name, breed_id, breeder_id, color,\n\t\t\tdate_of_birth, spayed_neutered, description, weight\n\t\t\tFROM cats WHERE id = ?"

/-- Go `MySQLRepository.GetBreedByID`. -/
def MySQLRepository.GetBreedByID (r : MySQLRepository) (id : Int) :
    Option Breed × Option Error :=
  match rowScan (r.DB.QueryRowContext getBreedByIDQuery [.int id]) scanBreed with
  | .error err => (none, some err)
  | .ok breed => (some breed, none)

/-- Go `MySQLRepository.GetCatByID`. -/
def MySQLRepository.GetCatByID (r : MySQLRepository) (id : Int) :
    Option Cat × Option Error :=
  match rowScan (r.DB.QueryRowContext getCatByIDQuery [.int id]) scanCat with
  | .error err => (none, some err)
  | .ok cat => (some cat, none)

end cat

namespace breeder

/-- The struct `MySQLRepository` of `internal/breeder/mysql_repository.go`. -/
structure MySQLRepository where
  DB : DB

/-- The `rows.Scan(&b.ID, &b.BreederName, ...)` of a breeder row: ten
destinations. -/
def scanBreeder : List SqlValue → Except Error Breeder
  | [c0, c1, c2, c3, c4, c5, c6, c7, c8, c9] => do
    let id ← scanInt 0 c0
    let name ← scanString 1 c1
    let address ← scanString 2 c2
    let city ← scanString 3 c3
    let provState ← scanString 4 c4
    let country ← scanString 5 c5
    let zip ← scanString 6 c6
    let phone ← scanString 7 c7
    let email ← scanString 8 c8
    let active ← scanInt 9 c9
    pure { ID := id, BreederName := name, Address := address, City := city,
           ProvState := provState, Country := country, Zip := zip, Phone := phone,
           Email := email, Active := active }
  | _ => .error (.other "sql: expected 10 destination arguments in Scan")

/-- The statement of `MySQLRepository.GetBreederByID`. -/
def getBreederByIDQuery : String :=
  "SELECT id, breeder_name, address, city, prov_state,\n\t\t\tcountry, zip, phone, email, active\n\t\t\tFROM breeders WHERE id = ?"

/-- Go `MySQLRepository.GetBreederByID`. -/
def MySQLRepository.GetBreederByID (r : MySQLRepository) (id : Int) :
    Option Breeder × Option Error :=
  match rowScan (r.DB.QueryRowContext getBreederByIDQuery [.int id]) scanBreeder with
  | .error err => (none, some err)
  | .ok breeder => (some breeder, none)

end breeder

/-! ## Calls through the repository interfaces -/

namespace dog

/-- A call of a method of the interface `Repository`, with its arguments. -/
inductive Call where
  | AllBreeds
  | GetBreedByID (id : Int)
  | AllDogs
  | GetDogByID (id : Int)
  | InsertDog (dog : Option Dog)
  | UpdateDog (dog : Option Dog)
  | DeleteDog (id : Int)
  deriving DecidableEq, Repr

/-- The repository `repo` with a log at its side: every method does what the
method of `repo` does and appends its own call to the log. -/
def traced {σ : Type} (repo : Repository σ) : Repository (σ × List Call) :=
  { AllBreeds := fun s => ((repo.AllBreeds s.1).1, (repo.AllBreeds s.1).2, s.2 ++ [.AllBreeds])
    GetBreedByID := fun id s =>
      ((repo.GetBreedByID id s.1).1, (repo.GetBreedByID id s.1).2, s.2 ++ [.GetBreedByID id])
    AllDogs := fun s => ((repo.AllDogs s.1).1, (repo.AllDogs s.1).2, s.2 ++ [.AllDogs])
    GetDogByID := fun id s =>
      ((repo.GetDogByID id s.1).1, (repo.GetDogByID id s.1).2, s.2 ++ [.GetDogByID id])
    InsertDog := fun d s =>
      ((repo.InsertDog d s.1).1, (repo.InsertDog d s.1).2, s.2 ++ [.InsertDog d])
    UpdateDog := fun d s =>
      ((repo.UpdateDog d s.1).1, (repo.UpdateDog d s.1).2, s.2 ++ [.UpdateDog d])
    DeleteDog := fun id s =>
      ((repo.DeleteDog id s.1).1, (repo.DeleteDog id s.1).2, s.2 ++ [.DeleteDog id]) }

end dog

namespace cat

/-- A call of a method of the interface `Repository`, with its arguments. -/
inductive Call where
  | AllBreeds
  | GetBreedByID (id : Int)
  | AllCats
  | GetCatByID (id : Int)
  | InsertCat (cat : Option Cat)
  | UpdateCat (cat : Option Cat)
  | DeleteCat (id : Int)
  deriving DecidableEq, Repr

/-- The repository `repo` with a log at its side: every method does what the
method of `repo` does and appends its own call to the log. -/
def traced {σ : Type} (repo : Repository σ) : Repository (σ × List Call) :=
  { AllBreeds := fun s => ((repo.AllBreeds s.1).1, (repo.AllBreeds s.1).2, s.2 ++ [.AllBreeds])
    GetBreedByID := fun id s =>
      ((repo.GetBreedByID id s.1).1, (repo.GetBreedByID id s.1).2, s.2 ++ [.GetBreedByID id])
    AllCats := fun s => ((repo.AllCats s.1).1, (repo.AllCats s.1).2, s.2 ++ [.AllCats])
    GetCatByID := fun id s =>
      ((repo.GetCatByID id s.1).1, (repo.GetCatByID id s.1).2, s.2 ++ [.GetCatByID id])
    InsertCat := fun c s =>
      ((repo.InsertCat c s.1).1, (repo.InsertCat c s.1).2, s.2 ++ [.InsertCat c])
    UpdateCat := fun c s =>
      ((repo.UpdateCat c s.1).1, (repo.UpdateCat c s.1).2, s.2 ++ [.UpdateCat c])
    DeleteCat := fun id s =>
      ((repo.DeleteCat id s.1).1, (repo.DeleteCat id s.1).2, s.2 ++ [.DeleteCat id]) }

end cat

namespace breeder

/-- A call of a method of the interface `Repository`, with its arguments. -/
inductive Call where
  | AllBreeders
  | GetBreederByID (id : Int)
  | InsertBreeder (breeder : Option Breeder)
  | UpdateBreeder (breeder : Option Breeder)
  | DeleteBreeder (id : Int)
  deriving DecidableEq, Repr

/-- The repository `repo` with a log at its side: every method does what the
method of `repo` does and appends its own call to the log. -/
def traced {σ : Type} (repo : Repository σ) : Repository (σ × List Call) :=
  { AllBreeders := fun s =>
      ((repo.AllBreeders s.1).1, (repo.AllBreeders s.1).2, s.2 ++ [.AllBreeders])
    GetBreederByID := fun id s =>
      ((repo.GetBreederByID id s.1).1, (repo.GetBreederByID id s.1).2,
        s.2 ++ [.GetBreederByID id])
    InsertBreeder := fun b s =>
      ((repo.InsertBreeder b s.1).1, (repo.InsertBreeder b s.1).2, s.2 ++ [.InsertBreeder b])
    UpdateBreeder := fun b s =>
      ((repo.UpdateBreeder b s.1).1, (repo.UpdateBreeder b s.1).2, s.2 ++ [.UpdateBreeder b])
    DeleteBreeder := fun id s =>
      ((repo.DeleteBreeder id s.1).1, (repo.DeleteBreeder id s.1).2,
        s.2 ++ [.DeleteBreeder id]) }

end breeder

/-! ## The fixture writes with their effects on memory -/

namespace dog

/-- Go `MockRepository.InsertDog` with its effects: next to the result, the
struct behind the receiver `m` and the record behind the pointer `dog`
(`none`: nil) as the method leaves them. The body is `return 999, nil`: it
assigns to neither. -/
def MockRepository.InsertDogEffect (m : MockRepository) (dog : Option Dog) :
    (Int × Option Error) × MockRepository × Option Dog :=
  (m.InsertDog dog, m, dog)

/-- Go `MockRepository.UpdateDog` with its effects. The body is `return nil`:
it assigns neither to the receiver nor to the record behind `dog`. -/
def MockRepository.UpdateDogEffect (m : MockRepository) (dog : Option Dog) :
    Option Error × MockRepository × Option Dog :=
  (m.UpdateDog dog, m, dog)

/-- Go `MockRepository.DeleteDog` with its effect on the receiver. The body is
`return nil`. -/
def MockRepository.DeleteDogEffect (m : MockRepository) (id : Int) :
    Option Error × MockRepository :=
  (m.DeleteDog id, m)

end dog

namespace cat

/-- Go `MockRepository.InsertCat` with its effects: next to the result, the
struct behind the receiver `m` and the record behind the pointer `cat`
(`none`: nil) as the method leaves them. The body is `return 999, nil`: it
assigns to neither. -/
def MockRepository.InsertCatEffect (m : MockRepository) (cat : Option Cat) :
    (Int × Option Error) × MockRepository × Option Cat :=
  (m.InsertCat cat, m, cat)

/-- Go `MockRepository.UpdateCat` with its effects. The body is `return nil`:
it assigns neither to the receiver nor to the record behind `cat`. -/
def MockRepository.UpdateCatEffect (m : MockRepository) (cat : Option Cat) :
    Option Error × MockRepository × Option Cat :=
  (m.UpdateCat cat, m, cat)

/-- Go `MockRepository.DeleteCat` with its effect on the receiver. The body is
`return nil`. -/
def MockRepository.DeleteCatEffect (m : MockRepository) (id : Int) :
    Option Error × MockRepository :=
  (m.DeleteCat id, m)

end cat

namespace breeder

/-- Go `MockRepository.InsertBreeder` with its effects: next to the result, the
struct behind the receiver `m` and the record behind the pointer `breeder`
(`none`: nil) as the method leaves them. The body is `return 999, nil`: it
assigns to neither. -/
def MockRepository.InsertBreederEffect (m : MockRepository) (breeder : Option Breeder) :
    (Int × Option Error) × MockRepository × Option Breeder :=
  (m.InsertBreeder breeder, m, breeder)

/-- Go `MockRepository.UpdateBreeder` with its effects. The body is `return nil`:
it assigns neither to the receiver nor to the record behind `breeder`. -/
def MockRepository.UpdateBreederEffect (m : MockRepository) (breeder : Option Breeder) :
    Option Error × MockRepository × Option Breeder :=
  (m.UpdateBreeder breeder, m, breeder)

/-- Go `MockRepository.DeleteBreeder` with its effect on the receiver. The body is
`return nil`. -/
def MockRepository.DeleteBreederEffect (m : MockRepository) (id : Int) :
    Option Error × MockRepository :=
  (m.DeleteBreeder id, m)

end breeder

/-- The three fixture repositories of a test application (`TestMain`). -/
structure Fixtures where
  dog : dog.MockRepository
  cat : cat.MockRepository
  breeder : breeder.MockRepository
  deriving DecidableEq, Repr

/-- The memory of a program that uses the three fixtures: the three
repository structs and the entity records the program holds. A pointer to a
record (`*Dog`, `*Cat`, `*Breeder`) is `none` for nil or the index of the
record in its list. The packages of the fixtures declare no variable, so the
receiver and the record behind a pointer argument are all a fixture write can
reach. -/
structure World where
  fixtures : Fixtures
  dogs : List dog.Dog
  cats : List cat.Cat
  breeders : List breeder.Breeder
  deriving DecidableEq, Repr

/-- The record behind the pointer `p` among the records `heap`; `none` for a
nil pointer. -/
def deref {α : Type} (heap : List α) (p : Option Nat) : Option α :=
  match p with
  | none => none
  | some i => heap[i]?

/-- The records `heap` once a method has left the record behind the pointer
`p` as `x`. -/
def assign {α : Type} (heap : List α) (p : Option Nat) (x : Option α) : List α :=
  match p, x with
  | some i, some v => heap.set i v
  | _, _ => heap

/-- A call of one of the nine fixture writes, with its argument: a pointer to
a record of the program for an insert or an update, an identifier for a
delete. -/
inductive WriteCall where
  | InsertDog (dog : Option Nat)
  | UpdateDog (dog : Option Nat)
  | DeleteDog (id : Int)
  | InsertCat (cat : Option Nat)
  | UpdateCat (cat : Option Nat)
  | DeleteCat (id : Int)
  | InsertBreeder (breeder : Option Nat)
  | UpdateBreeder (breeder : Option Nat)
  | DeleteBreeder (id : Int)
  deriving DecidableEq, Repr

/-- The memory after one fixture write: the receiver and the record behind the
argument are replaced by what the method leaves of them. -/
def WriteCall.run : WriteCall → World → World
  | .InsertDog p, w =>
    let r := w.fixtures.dog.InsertDogEffect (deref w.dogs p)
    { w with fixtures := { w.fixtures with dog := r.2.1 }, dogs := assign w.dogs p r.2.2 }
  | .UpdateDog p, w =>
    let r := w.fixtures.dog.UpdateDogEffect (deref w.dogs p)
    { w with fixtures := { w.fixtures with dog := r.2.1 }, dogs := assign w.dogs p r.2.2 }
  | .DeleteDog id, w =>
    let r := w.fixtures.dog.DeleteDogEffect id
    { w with fixtures := { w.fixtures with dog := r.2 } }
  | .InsertCat p, w =>
    let r := w.fixtures.cat.InsertCatEffect (deref w.cats p)
    { w with fixtures := { w.fixtures with cat := r.2.1 }, cats := assign w.cats p r.2.2 }
  | .UpdateCat p, w =>
    let r := w.fixtures.cat.UpdateCatEffect (deref w.cats p)
    { w with fixtures := { w.fixtures with cat := r.2.1 }, cats := assign w.cats p r.2.2 }
  | .DeleteCat id, w =>
    let r := w.fixtures.cat.DeleteCatEffect id
    { w with fixtures := { w.fixtures with cat := r.2 } }
  | .InsertBreeder p, w =>
    let r := w.fixtures.breeder.InsertBreederEffect (deref w.breeders p)
    { w with fixtures := { w.fixtures with breeder := r.2.1 },
             breeders := assign w.breeders p r.2.2 }
  | .UpdateBreeder p, w =>
    let r := w.fixtures.breeder.UpdateBreederEffect (deref w.breeders p)
    { w with fixtures := { w.fixtures with breeder := r.2.1 },
             breeders := assign w.breeders p r.2.2 }
  | .DeleteBreeder id, w =>
    let r := w.fixtures.breeder.DeleteBreederEffect id
    { w with fixtures := { w.fixtures with breeder := r.2 } }

/-- The memory after a sequence of fixture writes, made one after the other. -/
def runWrites : List WriteCall → World → World
  | [], w => w
  | c :: rest, w => runWrites rest (c.run w)

/-- Everything the reads of the three fixtures return for the identifier
`id`: the five lists and the five get-by-id results, each with its error. -/
structure Reads where
  dogBreeds : List dog.Breed × Option Error
  dogBreed : Option dog.Breed × Option Error
  dogs : List dog.Dog × Option Error
  dogByID : Option dog.Dog × Option Error
  catBreeds : List cat.Breed × Option Error
  catBreed : Option cat.Breed × Option Error
  cats : List cat.Cat × Option Error
  catByID : Option cat.Cat × Option Error
  breeders : List breeder.Breeder × Option Error
  breederByID : Option breeder.Breeder × Option Error
  deriving DecidableEq, Repr

/-- The reads of the fixtures `f` for the identifier `id`, made through the
interfaces. -/
def readAll (f : Fixtures) (id : Int) : Reads :=
  { dogBreeds := (dog.NewMockRepository.AllBreeds f.dog).1
    dogBreed := (dog.NewMockRepository.GetBreedByID id f.dog).1
    dogs := (dog.NewMockRepository.AllDogs f.dog).1
    dogByID := (dog.NewMockRepository.GetDogByID id f.dog).1
    catBreeds := (cat.NewMockRepository.AllBreeds f.cat).1
    catBreed := (cat.NewMockRepository.GetBreedByID id f.cat).1
    cats := (cat.NewMockRepository.AllCats f.cat).1
    catByID := (cat.NewMockRepository.GetCatByID id f.cat).1
    breeders := (breeder.NewMockRepository.AllBreeders f.breeder).1
    breederByID := (breeder.NewMockRepository.GetBreederByID id f.breeder).1 }

/-! ## Handlers: the response writer and the JSON helpers -/

/-- The constant `http.StatusOK`. -/
def StatusOK : Nat := 200

/-- The constant `http.StatusInternalServerError`. -/
def StatusInternalServerError : Nat := 500

/-- An `http.ResponseWriter` as a test recorder keeps it: the header map, the
status code, whether the header has been written, and the body written so
far. -/
structure ResponseWriter where
  Header : List (String × String)
  Code : Nat
  wroteHeader : Bool
  Body : String
  deriving DecidableEq, Repr

/-- A fresh recorder (`httptest.NewRecorder()`): no header, code 200, empty
body. -/
def NewRecorder : ResponseWriter :=
  { Header := [], Code := 200, wroteHeader := false, Body := "" }

/-- The call `w.Header().Set(key, value)`: the entry of `key` is replaced. -/
def ResponseWriter.HeaderSet (w : ResponseWriter) (key value : String) : ResponseWriter :=
  { w with Header := (w.Header.filter (fun kv => kv.1 != key)) ++ [(key, value)] }

/-- The call `w.WriteHeader(status)`: only the first call sets the code. -/
def ResponseWriter.WriteHeader (w : ResponseWriter) (status : Nat) : ResponseWriter :=
  if w.wroteHeader then w else { w with Code := status, wroteHeader := true }

/-- The call `w.Write(out)`: writes the header with status 200 if it has not
been written, then appends to the body. -/
def ResponseWriter.Write (w : ResponseWriter) (out : String) : ResponseWriter :=
  let w1 := if w.wroteHeader then w else w.WriteHeader StatusOK
  { w1 with Body := w1.Body ++ out }

/-- An `*http.Request`, by its method and its target. -/
structure Request where
  Method : String
  URL : String
  deriving DecidableEq, Repr

namespace toolbox

/-- The struct `toolbox.JSONResponse`, the error envelope: the fields `error`
and `message` (the field `data` is left empty by `ErrorJSON`). -/
structure JSONResponse where
  Error : Bool
  Message : String
  deriving DecidableEq, Repr

/-- The method `Tools.WriteJSON` of the library `github.com/tsawler/toolbox`:
sets `Content-Type: application/json`, writes the status, writes the JSON of
the payload, and returns a nil error. The JSON encoding of the payload is the
parameter `marshal`. -/
def WriteJSON {α : Type} (marshal : α → String) (w : ResponseWriter) (status : Nat)
    (data : α) : ResponseWriter × Option Error :=
  let w1 := w.HeaderSet "Content-Type" "application/json"
  let w2 := w1.WriteHeader status
  (w2.Write (marshal data), none)

/-- The method `Tools.ErrorJSON` of the library, called with a status: the
envelope with `error: true` and the message of the error, written by
`WriteJSON` with that status. -/
def ErrorJSON (marshal : JSONResponse → String) (w : ResponseWriter) (err : Error)
    (status : Nat) : ResponseWriter × Option Error :=
  let payload : JSONResponse := { Error := true, Message := err.Error }
  WriteJSON marshal w status payload

end toolbox

namespace dog

/-- The struct `Handler` of `internal/dog/handler.go`. -/
structure Handler (σ : Type) where
  service : Service σ

/-- Go `NewHandler`. -/
def NewHandler {σ : Type} (service : Service σ) : Handler σ := { service := service }

/-- Go `Handler.GetAllBreedsJSON`. The request is not looked at; the errors of
`ErrorJSON` and `WriteJSON` are dropped. The parameters `marshal` and
`marshalErr` are the JSON encodings of the list and of the error envelope. -/
def Handler.GetAllBreedsJSON {σ : Type} (h : Handler σ) (marshal : List Breed → String)
    (marshalErr : toolbox.JSONResponse → String) (w : ResponseWriter) (_r : Request)
    (s : σ) : ResponseWriter × σ :=
  match h.service.GetAllBreeds s with
  | ((_, some err), s1) => ((toolbox.ErrorJSON marshalErr w err StatusInternalServerError).1, s1)
  | ((breeds, none), s1) => ((toolbox.WriteJSON marshal w StatusOK breeds).1, s1)

/-- Go `Handler.GetBreedByIDJSON`: a placeholder with an empty body. -/
def Handler.GetBreedByIDJSON {σ : Type} (_h : Handler σ) (w : ResponseWriter) (_r : Request)
    (s : σ) : ResponseWriter × σ :=
  (w, s)

/-- Go `Handler.GetAllDogsJSON`. -/
def Handler.GetAllDogsJSON {σ : Type} (h : Handler σ) (marshal : List Dog → String)
    (marshalErr : toolbox.JSONResponse → String) (w : ResponseWriter) (_r : Request)
    (s : σ) : ResponseWriter × σ :=
  match h.service.GetAllDogs s with
  | ((_, some err), s1) => ((toolbox.ErrorJSON marshalErr w err StatusInternalServerError).1, s1)
  | ((dogs, none), s1) => ((toolbox.WriteJSON marshal w StatusOK dogs).1, s1)

end dog

namespace cat

/-- The struct `Handler` of `internal/cat/handler.go`. -/
structure Handler (σ : Type) where
  service : Service σ

/-- Go `NewHandler`. -/
def NewHandler {σ : Type} (service : Service σ) : Handler σ := { service := service }

/-- Go `Handler.GetAllBreedsJSON`. -/
def Handler.GetAllBreedsJSON {σ : Type} (h : Handler σ) (marshal : List Breed → String)
    (marshalErr : toolbox.JSONResponse → String) (w : ResponseWriter) (_r : Request)
    (s : σ) : ResponseWriter × σ :=
  match h.service.GetAllBreeds s with
  | ((_, some err), s1) => ((toolbox.ErrorJSON marshalErr w err StatusInternalServerError).1, s1)
  | ((breeds, none), s1) => ((toolbox.WriteJSON marshal w StatusOK breeds).1, s1)

/-- Go `Handler.GetAllCatsJSON`. -/
def Handler.GetAllCatsJSON {σ : Type} (h : Handler σ) (marshal : List Cat → String)
    (marshalErr : toolbox.JSONResponse → String) (w : ResponseWriter) (_r : Request)
    (s : σ) : ResponseWriter × σ :=
  match h.service.GetAllCats s with
  | ((_, some err), s1) => ((toolbox.ErrorJSON marshalErr w err StatusInternalServerError).1, s1)
  | ((cats, none), s1) => ((toolbox.WriteJSON marshal w StatusOK cats).1, s1)

end cat

namespace breeder

/-- The struct `Handler` of `internal/breeder/handler.go`. -/
structure Handler (σ : Type) where
  service : Service σ

/-- Go `NewHandler`. -/
def NewHandler {σ : Type} (service : Service σ) : Handler σ := { service := service }

/-- Go `Handler.GetAllBreedersJSON`. -/
def Handler.GetAllBreedersJSON {σ : Type} (h : Handler σ) (marshal : List Breeder → String)
    (marshalErr : toolbox.JSONResponse → String) (w : ResponseWriter) (_r : Request)
    (s : σ) : ResponseWriter × σ :=
  match h.service.GetAllBreeders s with
  | ((_, some err), s1) => ((toolbox.ErrorJSON marshalErr w err StatusInternalServerError).1, s1)
  | ((breeders, none), s1) => ((toolbox.WriteJSON marshal w StatusOK breeders).1, s1)

end breeder

/-! ## The relational backend: lists and writes -/

/-- The loop of the relational list operations over the rows the iteration
delivers: each row is scanned into a fresh record; a failed scan ends the
operation with its error, a scanned record is appended to the slice. -/
def scanLoop {α : Type} (scan : List SqlValue → Except Error α) :
    List (List SqlValue) → List α → Except Error (List α)
  | [], acc => .ok acc
  | row :: rest, acc =>
    match scan row with
    | .error err => .error err
    | .ok x => scanLoop scan rest (acc ++ [x])

namespace dog

/-- The statement of `MySQLRepository.AllBreeds`. -/
def allBreedsQuery : String :=
  "SELECT id, breed, weight_low_lbs, weight_high_lbs,\n\t\t\tCAST(((weight_low_lbs + weight_high_lbs) / 2) AS unsigned) AS average_weight,\n\t\t\tlifespan, COALESCE(details, ''),\n\t\t\tCOALESCE(alternate_names, ''), COALESCE(geographic_origin, '')\n\t\t\tFROM dog_breeds ORDER BY breed"

/-- The statement of `MySQLRepository.AllDogs`. -/
def allDogsQuery : String :=
  "SELECT id, dog_name, breed_id, breeder_id, color,\n\t\t\tdate_of_birth, spayed_neutered, description, weight\n\t\t\tFROM dogs ORDER BY dog_name"

/-- The statement of `MySQLRepository.InsertDog`. -/
def insertDogQuery : String :=
  "INSERT INTO dogs (dog_name, breed_id, breeder_id, color,\n\t\t\tdate_of_birth, spayed_neutered, description, weight)\n\t\t\tVALUES (?, ?, ?, ?, ?, ?, ?, ?)"

/-- The statement of `MySQLRepository.UpdateDog`. -/
def updateDogQuery : String :=
  "UPDATE dogs SET dog_name = ?, breed_id = ?, breeder_id = ?,\n\t\t\tcolor = ?, date_of_birth = ?, spayed_neutered = ?,\n\t\t\tdescription = ?, weight = ? WHERE id = ?"

/-- The statement of `MySQLRepository.DeleteDog`. -/
def deleteDogQuery : String :=
  "DELETE FROM dogs WHERE id = ?"

/-- Go `MySQLRepository.AllBreeds`: a failed query or a failed scan returns a
nil slice with the error; else the scanned breeds with `rows.Err()`. -/
def MySQLRepository.AllBreeds (r : MySQLRepository) : List Breed × Option Error :=
  match r.DB.QueryContext allBreedsQuery [] with
  | .error err => ([], some err)
  | .ok rows =>
    match scanLoop scanBreed rows.rows [] with
    | .error err => ([], some err)
    | .ok breeds => (breeds, rows.err)

/-- Go `MySQLRepository.AllDogs`. -/
def MySQLRepository.AllDogs (r : MySQLRepository) : List Dog × Option Error :=
  match r.DB.QueryContext allDogsQuery [] with
  | .error err => ([], some err)
  | .ok rows =>
    match scanLoop scanDog rows.rows [] with
    | .error err => ([], some err)
    | .ok dogs => (dogs, rows.err)

/-- Go `MySQLRepository.InsertDog`. The pointer is dereferenced, so the input
is a record; `int(id)` is the identity on a 64-bit `int`. -/
def MySQLRepository.InsertDog (r : MySQLRepository) (dog : Dog) : Int × Option Error :=
  match r.DB.ExecContext insertDogQuery
      [.str dog.DogName, .int dog.BreedID, .int dog.BreederID, .str dog.Color,
       .time dog.DateOfBirth, .int dog.SpayedOrNeutered, .str dog.Description,
       .int dog.Weight] with
  | .error err => (0, some err)
  | .ok result =>
    match result.LastInsertId with
    | .error err => (0, some err)
    | .ok id => (id, none)

/-- Go `MySQLRepository.UpdateDog`: the result of the statement is dropped, its
error returned. -/
def MySQLRepository.UpdateDog (r : MySQLRepository) (dog : Dog) : Option Error :=
  match r.DB.ExecContext updateDogQuery
      [.str dog.DogName, .int dog.BreedID, .int dog.BreederID, .str dog.Color,
       .time dog.DateOfBirth, .int dog.SpayedOrNeutered, .str dog.Description,
       .int dog.Weight, .int dog.ID] with
  | .error err => some err
  | .ok _ => none

/-- Go `MySQLRepository.DeleteDog`. -/
def MySQLRepository.DeleteDog (r : MySQLRepository) (id : Int) : Option Error :=
  match r.DB.ExecContext deleteDogQuery [.int id] with
  | .error err => some err
  | .ok _ => none

end dog

namespace cat

/-- The statement of `MySQLRepository.AllBreeds`. -/
def allBreedsQuery : String :=
  "SELECT id, breed, weight_low_lbs, weight_high_lbs,\n\t\t\tCAST(((weight_low_lbs + weight_high_lbs) / 2) AS unsigned) AS average_weight,\n\t\t\tlifespan, COALESCE(details, ''),\n\t\t\tCOALESCE(alternate_names, ''), COALESCE(geographic_origin, '')\n\t\t\tFROM cat_breeds ORDER BY breed"

/-- The statement of `MySQLRepository.AllCats`. -/
def allCatsQuery : String :=
  "SELECT id, cat_name, breed_id, breeder_id, color,\n\t\t\tdate_of_birth, spayed_neutered, description, weight\n\t\t\tFROM cats ORDER BY cat_name"

/-- The statement of `MySQLRepository.InsertCat`. -/
def insertCatQuery : String :=
  "INSERT INTO cats (cat_name, breed_id, breeder_id, color,\n\t\t\tdate_of_birth, spayed_neutered, description, weight)\n\t\t\tVALUES (?, ?, ?, ?, ?, ?, ?, ?)"

/-- The statement of `MySQLRepository.UpdateCat`. -/
def updateCatQuery : String :=
  "UPDATE cats SET cat_name = ?, breed_id = ?, breeder_id = ?,\n\t\t\tcolor = ?, date_of_birth = ?, spayed_neutered = ?,\n\t\t\tdescription = ?, weight = ? WHERE id = ?"

/-- The statement of `MySQLRepository.DeleteCat`. -/
def deleteCatQuery : String :=
  "DELETE FROM cats WHERE id = ?"

/-- Go `MySQLRepository.AllBreeds`: a failed query or a failed scan returns a
nil slice with the error; else the scanned breeds with `rows.Err()`. -/
def MySQLRepository.AllBreeds (r : MySQLRepository) : List Breed × Option Error :=
  match r.DB.QueryContext allBreedsQuery [] with
  | .error err => ([], some err)
  | .ok rows =>
    match scanLoop scanBreed rows.rows [] with
    | .error err => ([], some err)
    | .ok breeds => (breeds, rows.err)

/-- Go `MySQLRepository.AllCats`. -/
def MySQLRepository.AllCats (r : MySQLRepository) : List Cat × Option Error :=
  match r.DB.QueryContext allCatsQuery [] with
  | .error err => ([], some err)
  | .ok rows =>
    match scanLoop scanCat rows.rows [] with
    | .error err => ([], some err)
    | .ok cats => (cats, rows.err)

/-- Go `MySQLRepository.InsertCat`. The pointer is dereferenced, so the input
is a record; `int(id)` is the identity on a 64-bit `int`. -/
def MySQLRepository.InsertCat (r : MySQLRepository) (cat : Cat) : Int × Option Error :=
  match r.DB.ExecContext insertCatQuery
      [.str cat.CatName, .int cat.BreedID, .int cat.BreederID, .str cat.Color,
       .time cat.DateOfBirth, .int cat.SpayedOrNeutered, .str cat.Description,
       .int cat.Weight] with
  | .error err => (0, some err)
  | .ok result =>
    match result.LastInsertId with
    | .error err => (0, some err)
    | .ok id => (id, none)

/-- Go `MySQLRepository.UpdateCat`: the result of the statement is dropped, its
error returned. -/
def MySQLRepository.UpdateCat (r : MySQLRepository) (cat : Cat) : Option Error :=
  match r.DB.ExecContext updateCatQuery
      [.str cat.CatName, .int cat.BreedID, .int cat.BreederID, .str cat.Color,
       .time cat.DateOfBirth, .int cat.SpayedOrNeutered, .str cat.Description,
       .int cat.Weight, .int cat.ID] with
  | .error err => some err
  | .ok _ => none

/-- Go `MySQLRepository.DeleteCat`. -/
def MySQLRepository.DeleteCat (r : MySQLRepository) (id : Int) : Option Error :=
  match r.DB.ExecContext deleteCatQuery [.int id] with
  | .error err => some err
  | .ok _ => none

end cat

namespace breeder

/-- The statement of `MySQLRepository.AllBreeders`. -/
def allBreedersQuery : String :=
  "SELECT id, breeder_name, address, city, prov_state,\n\t\t\tcountry, zip, phone, email, active\n\t\t\tFROM breeders ORDER BY breeder_name"

/-- The statement of `MySQLRepository.InsertBreeder`. -/
def insertBreederQuery : String :=
  "INSERT INTO breeders (breeder_name, address, city, prov_state,\n\t\t\tcountry, zip, phone, email, active)\n\t\t\tVALUES (?, ?, ?, ?, ?, ?, ?, ?, ?)"

/-- The statement of `MySQLRepository.UpdateBreeder`. -/
def updateBreederQuery : String :=
  "UPDATE breeders SET breeder_name = ?, address = ?, city = ?,\n\t\t\tprov_state = ?, country = ?, zip = ?, phone = ?, email = ?,\n\t\t\tactive = ? WHERE id = ?"

/-- The statement of `MySQLRepository.DeleteBreeder`. -/
def deleteBreederQuery : String :=
  "DELETE FROM breeders WHERE id = ?"

/-- Go `MySQLRepository.AllBreeders`. -/
def MySQLRepository.AllBreeders (r : MySQLRepository) : List Breeder × Option Error :=
  match r.DB.QueryContext allBreedersQuery [] with
  | .error err => ([], some err)
  | .ok rows =>
    match scanLoop scanBreeder rows.rows [] with
    | .error err => ([], some err)
    | .ok breeders => (breeders, rows.err)

/-- Go `MySQLRepository.InsertBreeder`. The pointer is dereferenced, so the
input is a record; `int(id)` is the identity on a 64-bit `int`. -/
def MySQLRepository.InsertBreeder (r : MySQLRepository) (breeder : Breeder) :
    Int × Option Error :=
  match r.DB.ExecContext insertBreederQuery
      [.str breeder.BreederName, .str breeder.Address, .str breeder.City,
       .str breeder.ProvState, .str breeder.Country, .str breeder.Zip, .str breeder.Phone,
       .str breeder.Email, .int breeder.Active] with
  | .error err => (0, some err)
  | .ok result =>
    match result.LastInsertId with
    | .error err => (0, some err)
    | .ok id => (id, none)

/-- Go `MySQLRepository.UpdateBreeder`. -/
def MySQLRepository.UpdateBreeder (r : MySQLRepository) (breeder : Breeder) : Option Error :=
  match r.DB.ExecContext updateBreederQuery
      [.str breeder.BreederName, .str breeder.Address, .str breeder.City,
       .str breeder.ProvState, .str breeder.Country, .str breeder.Zip, .str breeder.Phone,
       .str breeder.Email, .int breeder.Active, .int breeder.ID] with
  | .error err => some err
  | .ok _ => none

/-- Go `MySQLRepository.DeleteBreeder`. -/
def MySQLRepository.DeleteBreeder (r : MySQLRepository) (id : Int) : Option Error :=
  match r.DB.ExecContext deleteBreederQuery [.int id] with
  | .error err => some err
  | .ok _ => none

end breeder

/-- A storage handle whose statements all succeed, affect one row and report
`id` as the last inserted identifier; its queries deliver no row. -/
def insertingDB (id : Int) : DB :=
  { QueryContext := fun _ _ => .ok { rows := [], err := none }
    QueryRowContext := fun _ _ => .ok none
    ExecContext := fun _ _ => .ok { LastInsertId := .ok id, RowsAffected := .ok 1 } }

/-- A storage handle whose statements all fail with the error `err`. -/
def failingDB (err : Error) : DB :=
  { QueryContext := fun _ _ => .error err
    QueryRowContext := fun _ _ => .error err
    ExecContext := fun _ _ => .error err }

/-- A storage handle whose queries all deliver the rows `rows` and the final
iteration error `err`. -/
def rowsDB (rows : List (List SqlValue)) (err : Option Error) : DB :=
  { QueryContext := fun _ _ => .ok { rows := rows, err := err }
    QueryRowContext := fun _ _ => .ok rows.head?
    ExecContext := fun _ _ => .ok { LastInsertId := .ok 0, RowsAffected := .ok 0 } }

/-- The error of a statement execution as the update and delete methods pass
it on: the error of `ExecContext`, nil when the execution succeeds, whatever
the result says. -/
def execError : Except Error Result → Option Error
  | .error err => some err
  | .ok _ => none

/-- The contract of a relational list operation `op` with statement `query`
and row scan `scan`: a failed query returns a nil slice with its error; a row
whose scan fails, after any number of rows that scan, returns a nil slice with
the error of that scan; when every row scans the operation returns the
scanned records, one per row and in the order of the rows, with the final
error of the iteration. -/
def DiscardsPartialResults {α : Type} (query : String)
    (scan : List SqlValue → Except Error α) (op : DB → List α × Option Error) : Prop :=
  ∀ db : DB,
    (∀ err, db.QueryContext query [] = .error err → op db = ([], some err)) ∧
    (∀ (rows : Rows) (pre : List (List SqlValue)) (bad : List SqlValue)
        (post : List (List SqlValue)) (recs : List α) (err : Error),
      db.QueryContext query [] = .ok rows →
      rows.rows = pre ++ bad :: post → pre.map scan = recs.map Except.ok →
      scan bad = .error err → op db = ([], some err)) ∧
    (∀ (rows : Rows) (recs : List α), db.QueryContext query [] = .ok rows →
      rows.rows.map scan = recs.map Except.ok → op db = (recs, rows.err))

/-! ## The value of the derived column `average_weight` -/

/-- The value of the expression `(weight_low_lbs + weight_high_lbs) / 2` on two
integer columns. The operator `/` of MySQL is exact-value division: the
quotient of two integers is a DECIMAL with four fractional digits, not an
integer. The value is given in ten-thousandths; a quotient by 2 has at most
one fractional digit, so nothing is lost. -/
def sqlMeanScaled (low high : Int) : Int := (low + high) * 10000 / 2

/-- The value of `CAST(x AS unsigned)` for a DECIMAL `x` given in
ten-thousandths: MySQL converts a non-negative DECIMAL to an integer by
rounding to the nearest integer, a half away from zero. A negative value is
out of the range of the type and is left out of the model (`none`). -/
def sqlCastUnsigned (scaled : Int) : Option Int :=
  if scaled < 0 then none else some ((scaled + 5000) / 10000)

/-- The column `average_weight` of the breed queries:
`CAST(((weight_low_lbs + weight_high_lbs) / 2) AS unsigned)`. -/
def sqlAverageWeight (low high : Int) : Option Int :=
  sqlCastUnsigned (sqlMeanScaled low high)

/-! ## The connection pool of `cmd/web/db.go` -/

/-- The configuration of the pool behind a `*sql.DB`: the maximum number of
open connections (`none`: unlimited), the maximum number of idle connections,
and the maximum lifetime of a connection in nanoseconds (0: no limit). -/
structure Pool where
  maxOpen : Option Nat
  maxIdle : Nat
  maxLifetime : Nat
  deriving DecidableEq, Repr

/-- The pool as `sql.Open` hands it out: open connections unlimited, two idle
connections (the default of the library), no maximum lifetime. -/
def Pool.fresh : Pool := { maxOpen := none, maxIdle := 2, maxLifetime := 0 }

/-- The method `SetMaxOpenConns(n)` for a positive `n`: the limit is set, and
the idle limit is lowered to it when it is above. -/
def Pool.SetMaxOpenConns (p : Pool) (n : Nat) : Pool :=
  { p with maxOpen := some n, maxIdle := if p.maxIdle > n then n else p.maxIdle }

/-- The method `SetMaxIdleConns(n)` for a positive `n`: the idle limit is set,
lowered to the limit of open connections when there is one below `n`. -/
def Pool.SetMaxIdleConns (p : Pool) (n : Nat) : Pool :=
  match p.maxOpen with
  | some maxOpen => { p with maxIdle := if n > maxOpen then maxOpen else n }
  | none => { p with maxIdle := n }

/-- The method `SetConnMaxLifetime(d)`, the duration in nanoseconds. -/
def Pool.SetConnMaxLifetime (p : Pool) (d : Nat) : Pool :=
  { p with maxLifetime := d }

/-- The constant `time.Minute`, in nanoseconds. -/
def Minute : Nat := 60 * 1000000000

/-- The constant `maxOpenDbConn`. -/
def maxOpenDbConn : Nat := 25

/-- The constant `maxIdleDBConn`. -/
def maxIdleDBConn : Nat := 25

/-- The constant `maxDBlifetime`. -/
def maxDBlifetime : Nat := 5 * Minute

/-- The function `initMySQLDB` of `cmd/web/db.go`. The library calls
`sql.Open` and `db.Ping` are the parameters `sqlOpen` and `ping`. After a
successful ping the function calls `SetMaxIdleConns(maxOpenDbConn)`,
`SetMaxIdleConns(maxIdleDBConn)` and `SetConnMaxLifetime(maxDBlifetime)`, in
that order. -/
def initMySQLDB (sqlOpen : String → String → Except Error Pool) (ping : Pool → Option Error)
    (dsn : String) : Option Pool × Option Error :=
  match sqlOpen "mysql" dsn with
  | .error err => (none, some err)
  | .ok db =>
    match ping db with
    | some err => (none, some err)
    | none =>
      let db1 := db.SetMaxIdleConns maxOpenDbConn
      let db2 := db1.SetMaxIdleConns maxIdleDBConn
      let db3 := db2.SetConnMaxLifetime maxDBlifetime
      (some db3, none)

/-! ## The package `pets`: the abstract factory -/

namespace pets

/-- The interface `AnimalInterface`, by its two implementations
`*DogFromFactory` and `*CatFromFactory`, each with its field `Pet`. -/
inductive AnimalInterface where
  | DogFromFactory (Pet : Option dog.Dog)
  | CatFromFactory (Pet : Option cat.Cat)
  deriving DecidableEq, Repr

/-- The method `Show` of `*DogFromFactory` and of `*CatFromFactory`. -/
def AnimalInterface.Show : AnimalInterface → String
  | .DogFromFactory _ => "this animal is a dog"
  | .CatFromFactory _ => "this animal is a cat"

/-- The struct `DogAbstractFactory struct{}`. -/
structure DogAbstractFactory where
  deriving DecidableEq, Repr

/-- The struct `CatAbstractFactory struct{}`. -/
structure CatAbstractFactory where
  deriving DecidableEq, Repr

/-- The method `newPet` of `*DogAbstractFactory`: a `DogFromFactory` around a
zero-valued `dog.Dog`. -/
def DogAbstractFactory.newPet (_df : DogAbstractFactory) : AnimalInterface :=
  .DogFromFactory (some {})

/-- The method `newPet` of `*CatAbstractFactory`: a `CatFromFactory` around a
zero-valued `cat.Cat`. -/
def CatAbstractFactory.newPet (_cf : CatAbstractFactory) : AnimalInterface :=
  .CatFromFactory (some {})

/-- The function `NewPetFromAbstractFactory`: the `switch` compares the string
with the case "dog", then with the case "cat". -/
def NewPetFromAbstractFactory (species : String) : Option AnimalInterface × Option Error :=
  if species = "dog" then
    let dogFactory : DogAbstractFactory := {}
    (some dogFactory.newPet, none)
  else if species = "cat" then
    let catFactory : CatAbstractFactory := {}
    (some catFactory.newPet, none)
  else
    (none, some (.other "invalid species supplied"))

end pets

/-- The state of a fresh response writer after one JSON response with the
given status and body has been written to it. -/
def jsonResponse (status : Nat) (body : String) : ResponseWriter :=
  { Header := [("Content-Type", "application/json")], Code := status, wroteHeader := true,
    Body := body }

/-- The record `r` is the first element of `xs` whose identifier is `id`:
it occurs in `xs`, has that identifier, and nothing before it has. -/
def IsFirstWithID {α : Type} (getID : α → Int) (xs : List α) (id : Int) (r : α) : Prop :=
  ∃ pre post, xs = pre ++ r :: post ∧ getID r = id ∧ ∀ y ∈ pre, getID y ≠ id

/-- The contract "exact match over the list" of a get-by-id result `res`
against the list `xs` of the corresponding list operation: the error is nil;
when some record of `xs` has the identifier the result is the first such
record; when none has, the result is nil. -/
def ExactMatch {α : Type} (getID : α → Int) (xs : List α) (id : Int)
    (res : Option α × Option Error) : Prop :=
  res.2 = none ∧
  ((∃ x ∈ xs, getID x = id) → ∃ r, res.1 = some r ∧ IsFirstWithID getID xs id r) ∧
  ((∀ x ∈ xs, getID x ≠ id) → res.1 = none)

/-- The mean of the two weight bounds rounded down: `floor((low + high) / 2)`. -/
def floorMean (low high : Int) : Int := Int.fdiv (low + high) 2

/-- The mean of the two weight bounds rounded half up:
`floor((low + high + 1) / 2)`. -/
def roundedMean (low high : Int) : Int := Int.fdiv (low + high + 1) 2

/-! ## Lemmas on the fixture loop -/

theorem rangeFindID_err {α : Type} (getID : α → Int) (xs : List α) (id : Int) :
    (rangeFindID getID xs id).2 = none := by
  induction xs with
  | nil => rfl
  | cons x rest ih =>
    unfold rangeFindID
    split
    · rfl
    · exact ih

theorem rangeFindID_none {α : Type} (getID : α → Int) (xs : List α) (id : Int)
    (h : ∀ x ∈ xs, getID x ≠ id) : (rangeFindID getID xs id).1 = none := by
  induction xs with
  | nil => rfl
  | cons x rest ih =>
    unfold rangeFindID
    have hx : getID x ≠ id := h x (List.mem_cons_self x rest)
    have hb : (getID x == id) = false := by simpa using hx
    rw [hb]
    exact ih (fun y hy => h y (List.mem_cons_of_mem x hy))

theorem rangeFindID_first {α : Type} (getID : α → Int) (xs : List α) (id : Int)
    (h : ∃ x ∈ xs, getID x = id) :
    ∃ r, (rangeFindID getID xs id).1 = some r ∧ IsFirstWithID getID xs id r := by
  induction xs with
  | nil =>
    obtain ⟨x, hx, _⟩ := h
    cases hx
  | cons x rest ih =>
    by_cases hx : getID x = id
    · refine ⟨x, ?_, [], rest, rfl, hx, ?_⟩
      · unfold rangeFindID
        have hb : (getID x == id) = true := by simpa using hx
        rw [hb]
        rfl
      · intro y hy
        cases hy
    · have hrest : ∃ y ∈ rest, getID y = id := by
        obtain ⟨y, hy, hyid⟩ := h
        rcases List.mem_cons.mp hy with rfl | hy2
        · exact absurd hyid hx
        · exact ⟨y, hy2, hyid⟩
      obtain ⟨r, hr, pre, post, hsplit, hrid, hpre⟩ := ih hrest
      refine ⟨r, ?_, x :: pre, post, ?_, hrid, ?_⟩
      · unfold rangeFindID
        have hb : (getID x == id) = false := by simpa using hx
        rw [hb]
        exact hr
      · rw [hsplit]
        rfl
      · intro y hy
        rcases List.mem_cons.mp hy with rfl | hy2
        · exact hx
        · exact hpre y hy2

theorem rangeFindID_exact {α : Type} (getID : α → Int) (xs : List α) (id : Int) :
    ExactMatch getID xs id (rangeFindID getID xs id) :=
  ⟨rangeFindID_err getID xs id, rangeFindID_first getID xs id, rangeFindID_none getID xs id⟩

theorem rangeFindID_mem {α : Type} (getID : α → Int) (xs : List α) (id : Int) (r : α)
    (h : (rangeFindID getID xs id).1 = some r) : r ∈ xs ∧ getID r = id := by
  induction xs with
  | nil => cases h
  | cons x rest ih =>
    unfold rangeFindID at h
    by_cases hx : getID x = id
    · have hb : (getID x == id) = true := by simpa using hx
      rw [hb] at h
      have hxr : x = r := by simpa using h
      subst hxr
      exact ⟨List.mem_cons_self _ _, hx⟩
    · have hb : (getID x == id) = false := by simpa using hx
      rw [hb] at h
      have := ih h
      exact ⟨List.mem_cons_of_mem x this.1, this.2⟩

/-! ## Lemmas on the relational list loop -/

theorem scanLoop_ok {α : Type} (scan : List SqlValue → Except Error α)
    (rows : List (List SqlValue)) (recs acc : List α)
    (h : rows.map scan = recs.map Except.ok) :
    scanLoop scan rows acc = .ok (acc ++ recs) := by
  induction rows generalizing recs acc with
  | nil =>
    cases recs with
    | nil => simp [scanLoop]
    | cons x rest => simp at h
  | cons row rest ih =>
    cases recs with
    | nil => simp at h
    | cons x recs1 =>
      simp only [List.map_cons, List.cons.injEq] at h
      obtain ⟨hrow, hrest⟩ := h
      simp only [scanLoop, hrow]
      rw [ih recs1 (acc ++ [x]) hrest]
      simp

theorem scanLoop_fail {α : Type} (scan : List SqlValue → Except Error α)
    (pre : List (List SqlValue)) (bad : List SqlValue) (post : List (List SqlValue))
    (recs acc : List α) (err : Error)
    (hpre : pre.map scan = recs.map Except.ok) (hbad : scan bad = .error err) :
    scanLoop scan (pre ++ bad :: post) acc = .error err := by
  induction pre generalizing recs acc with
  | nil => simp [scanLoop, hbad]
  | cons row rest ih =>
    cases recs with
    | nil => simp at hpre
    | cons x recs1 =>
      simp only [List.map_cons, List.cons.injEq] at hpre
      obtain ⟨hrow, hrest⟩ := hpre
      simp only [List.cons_append, scanLoop, hrow]
      exact ih recs1 (acc ++ [x]) hrest

theorem listOp_discards {α : Type} (query : String)
    (scan : List SqlValue → Except Error α) (op : DB → List α × Option Error)
    (hop : ∀ db : DB, op db =
      match db.QueryContext query [] with
      | .error err => ([], some err)
      | .ok rows =>
        match scanLoop scan rows.rows [] with
        | .error err => ([], some err)
        | .ok xs => (xs, rows.err)) :
    DiscardsPartialResults query scan op := by
  intro db
  refine ⟨?_, ?_, ?_⟩
  · intro err hq
    rw [hop db, hq]
  · intro rows pre bad post recs err hq hrows hpre hbad
    rw [hop db, hq]
    simp only [hrows, scanLoop_fail scan pre bad post recs [] err hpre hbad]
  · intro rows recs hq hall
    rw [hop db, hq]
    simp only [scanLoop_ok scan rows.rows recs [] hall, List.nil_append]

/-! ## Lemmas on the memory of the fixture writes -/

theorem set_getElem?_self {α : Type} (heap : List α) (i : Nat) (x : α)
    (h : heap[i]? = some x) : heap.set i x = heap := by
  induction heap generalizing i with
  | nil => rfl
  | cons y rest ih =>
    cases i with
    | zero =>
      simp only [List.getElem?_cons_zero, Option.some.injEq] at h
      simp [h]
    | succ n =>
      simp only [List.getElem?_cons_succ] at h
      simp [ih n h]

theorem assign_deref {α : Type} (heap : List α) (p : Option Nat) :
    assign heap p (deref heap p) = heap := by
  cases p with
  | none => rfl
  | some i =>
    cases h : heap[i]? with
    | none => simp [assign, deref, h]
    | some x => simp [assign, deref, h, set_getElem?_self heap i x h]

theorem WriteCall.run_frame (c : WriteCall) (w : World) : c.run w = w := by
  cases c <;>
    simp [WriteCall.run, assign_deref,
      dog.MockRepository.InsertDogEffect, dog.MockRepository.UpdateDogEffect,
      dog.MockRepository.DeleteDogEffect, cat.MockRepository.InsertCatEffect,
      cat.MockRepository.UpdateCatEffect, cat.MockRepository.DeleteCatEffect,
      breeder.MockRepository.InsertBreederEffect, breeder.MockRepository.UpdateBreederEffect,
      breeder.MockRepository.DeleteBreederEffect]

theorem runWrites_frame (calls : List WriteCall) (w : World) : runWrites calls w = w := by
  induction calls generalizing w with
  | nil => rfl
  | cons c rest ih => rw [runWrites, WriteCall.run_frame, ih]

/-! ## The claims -/

/-- C1: the fixture dog repository's `AllBreeds`, and `Service.GetAllBreeds`
built on it, return with a nil error exactly three breeds, named in order
Chihuahua, German Shepherd, Labrador Retriever (ascending), with average
weights 4, 70 and 68. -/
theorem C1_fixture_dog_breeds (m : dog.MockRepository) :
    (m.AllBreeds).2 = none ∧
    (m.AllBreeds).1.length = 3 ∧
    (m.AllBreeds).1.map (fun b => b.Breed) =
      ["Chihuahua", "German Shepherd", "Labrador Retriever"] ∧
    ascendingNames ((m.AllBreeds).1.map (fun b => b.Breed)) = true ∧
    (m.AllBreeds).1.map (fun b => b.AverageWeight) = [4, 70, 68] ∧
    ((dog.NewService dog.NewMockRepository).GetAllBreeds m).1 = m.AllBreeds := by
  exact ⟨rfl, rfl, rfl, rfl, rfl, rfl⟩

/-- C2 (as stated, refuted): the fixture dog breed with identifier 3, the
Labrador Retriever, has bounds 55 and 80 and average weight 68, which is not
`floor((55 + 80) / 2) = 67`. -/
theorem C2_floor_mean_counterexample :
    ∃ b : dog.Breed,
      dog.MockRepository.GetBreedByID ⟨⟩ 3 = (some b, none) ∧
      b ∈ (dog.MockRepository.AllBreeds ⟨⟩).1 ∧
      b.WeightLowLbs = 55 ∧ b.WeightHighLbs = 80 ∧ b.AverageWeight = 68 ∧
      floorMean b.WeightLowLbs b.WeightHighLbs = 67 ∧
      b.AverageWeight ≠ floorMean b.WeightLowLbs b.WeightHighLbs :=
  ⟨_, rfl, by decide, rfl, rfl, rfl, by decide, by decide⟩

/-- C2 (amended): every breed record the dog or cat fixture returns, by
`AllBreeds` and by `GetBreedByID` for every identifier that is found, has
`AverageWeight` equal to the mean of its bounds rounded half up,
`floor((WeightLowLbs + WeightHighLbs + 1) / 2)`. -/
theorem C2_fixture_average_weight (md : dog.MockRepository) (mc : cat.MockRepository) :
    (∀ b ∈ (md.AllBreeds).1, b.AverageWeight = roundedMean b.WeightLowLbs b.WeightHighLbs) ∧
    (∀ id b, (md.GetBreedByID id).1 = some b →
      b.AverageWeight = roundedMean b.WeightLowLbs b.WeightHighLbs) ∧
    (∀ b ∈ (mc.AllBreeds).1, b.AverageWeight = roundedMean b.WeightLowLbs b.WeightHighLbs) ∧
    (∀ id b, (mc.GetBreedByID id).1 = some b →
      b.AverageWeight = roundedMean b.WeightLowLbs b.WeightHighLbs) := by
  have hd : ∀ b ∈ (md.AllBreeds).1,
      b.AverageWeight = roundedMean b.WeightLowLbs b.WeightHighLbs := by
    intro b hb
    simp only [dog.MockRepository.AllBreeds, List.mem_cons, List.mem_singleton,
      List.not_mem_nil, or_false] at hb
    rcases hb with rfl | rfl | rfl <;> decide
  have hc : ∀ b ∈ (mc.AllBreeds).1,
      b.AverageWeight = roundedMean b.WeightLowLbs b.WeightHighLbs := by
    intro b hb
    simp only [cat.MockRepository.AllBreeds, List.mem_cons, List.mem_singleton,
      List.not_mem_nil, or_false] at hb
    rcases hb with rfl | rfl <;> decide
  refine ⟨hd, ?_, hc, ?_⟩
  · intro id b h
    exact hd b (rangeFindID_mem _ _ id b h).1
  · intro id b h
    exact hc b (rangeFindID_mem _ _ id b h).1

/-- C2 (amended), at concrete inputs: the dog breed found under identifier 3
(bounds 55 and 80, average 68) and the cat breed found under identifier 1
carry the rounded mean. -/
theorem C2_fixture_average_weight_witness :
    (∃ b, (dog.MockRepository.GetBreedByID ⟨⟩ 3).1 = some b ∧ b.AverageWeight = 68 ∧
      b.AverageWeight = roundedMean b.WeightLowLbs b.WeightHighLbs) ∧
    (∃ b, (cat.MockRepository.GetBreedByID ⟨⟩ 1).1 = some b ∧ b.AverageWeight = 10 ∧
      b.AverageWeight = roundedMean b.WeightLowLbs b.WeightHighLbs) :=
  ⟨⟨_, rfl, rfl, (C2_fixture_average_weight ⟨⟩ ⟨⟩).2.1 3 _ rfl⟩,
   ⟨_, rfl, rfl, (C2_fixture_average_weight ⟨⟩ ⟨⟩).2.2.2 1 _ rfl⟩⟩

/-- C3 (the code at the failing input): the fixture `AllDogs`, `AllCats` and
`AllBreeders` return their records in the order Max, Bella, then Whiskers,
Luna, then Happy Paws Breeders, Furry Friends Inc, and none of the three
lists is in ascending order of the name; the two fixture breed lists are in
ascending order of the breed name. -/
theorem C3_fixture_lists_not_name_ordered :
    ((dog.MockRepository.AllDogs ⟨⟩).1.map (fun d => d.DogName) = ["Max", "Bella"] ∧
     strLe "Max" "Bella" = false ∧
     ascendingNames ((dog.MockRepository.AllDogs ⟨⟩).1.map (fun d => d.DogName)) = false) ∧
    ((cat.MockRepository.AllCats ⟨⟩).1.map (fun c => c.CatName) = ["Whiskers", "Luna"] ∧
     strLe "Whiskers" "Luna" = false ∧
     ascendingNames ((cat.MockRepository.AllCats ⟨⟩).1.map (fun c => c.CatName)) = false) ∧
    ((breeder.MockRepository.AllBreeders ⟨⟩).1.map (fun b => b.BreederName) =
       ["Happy Paws Breeders", "Furry Friends Inc"] ∧
     strLe "Happy Paws Breeders" "Furry Friends Inc" = false ∧
     ascendingNames ((breeder.MockRepository.AllBreeders ⟨⟩).1.map
       (fun b => b.BreederName)) = false) ∧
    (ascendingNames ((dog.MockRepository.AllBreeds ⟨⟩).1.map (fun b => b.Breed)) = true ∧
     ascendingNames ((cat.MockRepository.AllBreeds ⟨⟩).1.map (fun b => b.Breed)) = true) :=
  ⟨⟨rfl, rfl, rfl⟩, ⟨rfl, rfl, rfl⟩, ⟨rfl, rfl, rfl⟩, ⟨rfl, rfl⟩⟩

/-- C4: each of the five fixture getters is an exact match over the list of
the corresponding list operation: for every identifier the error is nil, the
result is the first record of the list with that identifier when there is
one, and nil when there is none. -/
theorem C4_fixture_get_by_id_exact (md : dog.MockRepository) (mc : cat.MockRepository)
    (mb : breeder.MockRepository) (id : Int) :
    ExactMatch (fun b => b.ID) (md.AllBreeds).1 id (md.GetBreedByID id) ∧
    ExactMatch (fun d => d.ID) (md.AllDogs).1 id (md.GetDogByID id) ∧
    ExactMatch (fun b => b.ID) (mc.AllBreeds).1 id (mc.GetBreedByID id) ∧
    ExactMatch (fun c => c.ID) (mc.AllCats).1 id (mc.GetCatByID id) ∧
    ExactMatch (fun b => b.ID) (mb.AllBreeders).1 id (mb.GetBreederByID id) :=
  ⟨rangeFindID_exact _ _ id, rangeFindID_exact _ _ id, rangeFindID_exact _ _ id,
   rangeFindID_exact _ _ id, rangeFindID_exact _ _ id⟩

/-- C5: on the fixture breeder repository, and on the breeder service built on
it, `GetBreederByID(1)` returns with a nil error the record named
"Happy Paws Breeders" of Portland, OR, and `GetBreederByID(999)` returns nil
with a nil error. -/
theorem C5_fixture_breeder_by_id (m : breeder.MockRepository) :
    (∃ b, m.GetBreederByID 1 = (some b, none) ∧ b.ID = 1 ∧
      b.BreederName = "Happy Paws Breeders" ∧ b.City = "Portland" ∧ b.ProvState = "OR") ∧
    m.GetBreederByID 999 = (none, none) ∧
    ((breeder.NewService breeder.NewMockRepository).GetBreederByID 1 m).1 =
      m.GetBreederByID 1 ∧
    ((breeder.NewService breeder.NewMockRepository).GetBreederByID 999 m).1 = (none, none) :=
  ⟨⟨_, rfl, rfl, rfl, rfl, rfl⟩, rfl, rfl, rfl⟩

/-- C7: the fixture writes never fail: for every entity (nil included) and
every identifier, the three inserts return 999 with a nil error, the three
updates and the three deletes return a nil error, and a delete repeated on the
repository left by the first delete returns nil again. -/
theorem C7_fixture_writes_never_fail (md : dog.MockRepository) (mc : cat.MockRepository)
    (mb : breeder.MockRepository) (d : Option dog.Dog) (c : Option cat.Cat)
    (b : Option breeder.Breeder) (id : Int) :
    (md.InsertDog d = (999, none) ∧ mc.InsertCat c = (999, none) ∧
      mb.InsertBreeder b = (999, none)) ∧
    (md.UpdateDog d = none ∧ mc.UpdateCat c = none ∧ mb.UpdateBreeder b = none) ∧
    (md.DeleteDog id = none ∧ mc.DeleteCat id = none ∧ mb.DeleteBreeder id = none) ∧
    ((dog.NewMockRepository.DeleteDog id md).1 = none ∧
      (dog.NewMockRepository.DeleteDog id (dog.NewMockRepository.DeleteDog id md).2).1 = none) ∧
    ((cat.NewMockRepository.DeleteCat id mc).1 = none ∧
      (cat.NewMockRepository.DeleteCat id (cat.NewMockRepository.DeleteCat id mc).2).1 = none) ∧
    ((breeder.NewMockRepository.DeleteBreeder id mb).1 = none ∧
      (breeder.NewMockRepository.DeleteBreeder id
        (breeder.NewMockRepository.DeleteBreeder id mb).2).1 = none) :=
  ⟨⟨rfl, rfl, rfl⟩, ⟨rfl, rfl, rfl⟩, ⟨rfl, rfl, rfl⟩, ⟨rfl, rfl⟩, ⟨rfl, rfl⟩, ⟨rfl, rfl⟩⟩

/-- C6 (as stated, refuted): on a storage without rows the relational
`GetBreedByID(1)` of the dog domain returns a nil breed with the error
`sql.ErrNoRows`: the error is not nil and the result is not a zero-valued
breed. -/
theorem C6_missing_row_counterexample :
    emptyDB.QueryRowContext dog.getBreedByIDQuery [.int 1] = .ok none ∧
    dog.MySQLRepository.GetBreedByID ⟨emptyDB⟩ 1 = (none, some Error.ErrNoRows) ∧
    (dog.MySQLRepository.GetBreedByID ⟨emptyDB⟩ 1).2 ≠ none ∧
    dog.MySQLRepository.GetBreedByID ⟨emptyDB⟩ 1 ≠ (some dog.Breed.zero, none) :=
  ⟨rfl, rfl, by decide, by decide⟩

/-- C6 (amended): for each of the five relational getters, when the single-row
query of the getter finds no row for the requested identifier, the getter
returns a nil entity together with the error `sql.ErrNoRows`. -/
theorem C6_relational_missing_row (db : DB) (id : Int) :
    (db.QueryRowContext dog.getBreedByIDQuery [.int id] = .ok none →
      dog.MySQLRepository.GetBreedByID ⟨db⟩ id = (none, some Error.ErrNoRows)) ∧
    (db.QueryRowContext dog.getDogByIDQuery [.int id] = .ok none →
      dog.MySQLRepository.GetDogByID ⟨db⟩ id = (none, some Error.ErrNoRows)) ∧
    (db.QueryRowContext cat.getBreedByIDQuery [.int id] = .ok none →
      cat.MySQLRepository.GetBreedByID ⟨db⟩ id = (none, some Error.ErrNoRows)) ∧
    (db.QueryRowContext cat.getCatByIDQuery [.int id] = .ok none →
      cat.MySQLRepository.GetCatByID ⟨db⟩ id = (none, some Error.ErrNoRows)) ∧
    (db.QueryRowContext breeder.getBreederByIDQuery [.int id] = .ok none →
      breeder.MySQLRepository.GetBreederByID ⟨db⟩ id = (none, some Error.ErrNoRows)) := by
  refine ⟨?_, ?_, ?_, ?_, ?_⟩ <;> intro h
  · simp only [dog.MySQLRepository.GetBreedByID, h, rowScan]
  · simp only [dog.MySQLRepository.GetDogByID, h, rowScan]
  · simp only [cat.MySQLRepository.GetBreedByID, h, rowScan]
  · simp only [cat.MySQLRepository.GetCatByID, h, rowScan]
  · simp only [breeder.MySQLRepository.GetBreederByID, h, rowScan]

/-- C6 (amended), at a concrete input: the five getters on the storage without
rows, for the identifier 7. -/
theorem C6_relational_missing_row_witness :
    dog.MySQLRepository.GetBreedByID ⟨emptyDB⟩ 7 = (none, some Error.ErrNoRows) ∧
    dog.MySQLRepository.GetDogByID ⟨emptyDB⟩ 7 = (none, some Error.ErrNoRows) ∧
    cat.MySQLRepository.GetBreedByID ⟨emptyDB⟩ 7 = (none, some Error.ErrNoRows) ∧
    cat.MySQLRepository.GetCatByID ⟨emptyDB⟩ 7 = (none, some Error.ErrNoRows) ∧
    breeder.MySQLRepository.GetBreederByID ⟨emptyDB⟩ 7 = (none, some Error.ErrNoRows) :=
  ⟨(C6_relational_missing_row emptyDB 7).1 rfl,
   (C6_relational_missing_row emptyDB 7).2.1 rfl,
   (C6_relational_missing_row emptyDB 7).2.2.1 rfl,
   (C6_relational_missing_row emptyDB 7).2.2.2.1 rfl,
   (C6_relational_missing_row emptyDB 7).2.2.2.2 rfl⟩

/-- C8: the fixture writes do not persist. Each of the nine fixture writes
leaves the struct behind its receiver and the record behind its pointer
argument as it found them; so after every finite sequence of inserts, updates
and deletes with arbitrary arguments the memory of the program (the three
fixtures and every record it holds) is what it was before the sequence, and
every fixture read, each list and each get-by-id for every identifier, returns
what it returned before; and a read returns the same in every memory. -/
theorem C8_fixture_writes_do_not_persist (calls : List WriteCall) (w v : World) (id : Int)
    (md : dog.MockRepository) (mc : cat.MockRepository) (mb : breeder.MockRepository)
    (d : Option dog.Dog) (c : Option cat.Cat) (b : Option breeder.Breeder) :
    ((md.InsertDogEffect d).2 = (md, d) ∧ (md.UpdateDogEffect d).2 = (md, d) ∧
     (md.DeleteDogEffect id).2 = md ∧
     (mc.InsertCatEffect c).2 = (mc, c) ∧ (mc.UpdateCatEffect c).2 = (mc, c) ∧
     (mc.DeleteCatEffect id).2 = mc ∧
     (mb.InsertBreederEffect b).2 = (mb, b) ∧ (mb.UpdateBreederEffect b).2 = (mb, b) ∧
     (mb.DeleteBreederEffect id).2 = mb) ∧
    runWrites calls w = w ∧
    readAll (runWrites calls w).fixtures id = readAll w.fixtures id ∧
    readAll w.fixtures id = readAll v.fixtures id := by
  have hrun : runWrites calls w = w := runWrites_frame calls w
  refine ⟨⟨rfl, rfl, rfl, rfl, rfl, rfl, rfl, rfl, rfl⟩, hrun, ?_, rfl⟩
  rw [hrun]

/-- C9: the services are pure delegation: for every repository and every
argument, each method of the dog, cat and breeder service built by
`NewService` is the corresponding repository method (same result, same
error, same effect on the repository), and on a repository that logs its calls
a service method adds to the log exactly the one call of that repository
method. -/
theorem C9_service_delegates {σ : Type} (rd : dog.Repository σ) (rc : cat.Repository σ)
    (rb : breeder.Repository σ) (s : σ) (log : List dog.Call) (logc : List cat.Call)
    (logb : List breeder.Call) (id : Int) (d : Option dog.Dog) (c : Option cat.Cat)
    (b : Option breeder.Breeder) :
    ((dog.NewService rd).GetAllBreeds = rd.AllBreeds ∧
     (dog.NewService rd).GetBreedByID id = rd.GetBreedByID id ∧
     (dog.NewService rd).GetAllDogs = rd.AllDogs ∧
     (dog.NewService rd).GetDogByID id = rd.GetDogByID id ∧
     (dog.NewService rd).CreateDog d = rd.InsertDog d ∧
     (dog.NewService rd).UpdateDog d = rd.UpdateDog d ∧
     (dog.NewService rd).DeleteDog id = rd.DeleteDog id) ∧
    ((cat.NewService rc).GetAllBreeds = rc.AllBreeds ∧
     (cat.NewService rc).GetBreedByID id = rc.GetBreedByID id ∧
     (cat.NewService rc).GetAllCats = rc.AllCats ∧
     (cat.NewService rc).GetCatByID id = rc.GetCatByID id ∧
     (cat.NewService rc).CreateCat c = rc.InsertCat c ∧
     (cat.NewService rc).UpdateCat c = rc.UpdateCat c ∧
     (cat.NewService rc).DeleteCat id = rc.DeleteCat id) ∧
    ((breeder.NewService rb).GetAllBreeders = rb.AllBreeders ∧
     (breeder.NewService rb).GetBreederByID id = rb.GetBreederByID id ∧
     (breeder.NewService rb).CreateBreeder b = rb.InsertBreeder b ∧
     (breeder.NewService rb).UpdateBreeder b = rb.UpdateBreeder b ∧
     (breeder.NewService rb).DeleteBreeder id = rb.DeleteBreeder id) ∧
    (((dog.NewService (dog.traced rd)).GetAllBreeds (s, log)).2.2 = log ++ [.AllBreeds] ∧
     ((dog.NewService (dog.traced rd)).GetBreedByID id (s, log)).2.2 =
       log ++ [.GetBreedByID id] ∧
     ((dog.NewService (dog.traced rd)).GetAllDogs (s, log)).2.2 = log ++ [.AllDogs] ∧
     ((dog.NewService (dog.traced rd)).GetDogByID id (s, log)).2.2 =
       log ++ [.GetDogByID id] ∧
     ((dog.NewService (dog.traced rd)).CreateDog d (s, log)).2.2 = log ++ [.InsertDog d] ∧
     ((dog.NewService (dog.traced rd)).UpdateDog d (s, log)).2.2 = log ++ [.UpdateDog d] ∧
     ((dog.NewService (dog.traced rd)).DeleteDog id (s, log)).2.2 =
       log ++ [.DeleteDog id]) ∧
    (((cat.NewService (cat.traced rc)).GetAllBreeds (s, logc)).2.2 = logc ++ [.AllBreeds] ∧
     ((cat.NewService (cat.traced rc)).GetBreedByID id (s, logc)).2.2 =
       logc ++ [.GetBreedByID id] ∧
     ((cat.NewService (cat.traced rc)).GetAllCats (s, logc)).2.2 = logc ++ [.AllCats] ∧
     ((cat.NewService (cat.traced rc)).GetCatByID id (s, logc)).2.2 =
       logc ++ [.GetCatByID id] ∧
     ((cat.NewService (cat.traced rc)).CreateCat c (s, logc)).2.2 = logc ++ [.InsertCat c] ∧
     ((cat.NewService (cat.traced rc)).UpdateCat c (s, logc)).2.2 = logc ++ [.UpdateCat c] ∧
     ((cat.NewService (cat.traced rc)).DeleteCat id (s, logc)).2.2 =
       logc ++ [.DeleteCat id]) ∧
    (((breeder.NewService (breeder.traced rb)).GetAllBreeders (s, logb)).2.2 =
       logb ++ [.AllBreeders] ∧
     ((breeder.NewService (breeder.traced rb)).GetBreederByID id (s, logb)).2.2 =
       logb ++ [.GetBreederByID id] ∧
     ((breeder.NewService (breeder.traced rb)).CreateBreeder b (s, logb)).2.2 =
       logb ++ [.InsertBreeder b] ∧
     ((breeder.NewService (breeder.traced rb)).UpdateBreeder b (s, logb)).2.2 =
       logb ++ [.UpdateBreeder b] ∧
     ((breeder.NewService (breeder.traced rb)).DeleteBreeder id (s, logb)).2.2 =
       logb ++ [.DeleteBreeder id]) :=
  ⟨⟨rfl, rfl, rfl, rfl, rfl, rfl, rfl⟩, ⟨rfl, rfl, rfl, rfl, rfl, rfl, rfl⟩,
   ⟨rfl, rfl, rfl, rfl, rfl⟩, ⟨rfl, rfl, rfl, rfl, rfl, rfl, rfl⟩,
   ⟨rfl, rfl, rfl, rfl, rfl, rfl, rfl⟩, ⟨rfl, rfl, rfl, rfl, rfl⟩⟩

/-- C10: in each of the three domains a handler over a service over the
fixture repository answers each list endpoint, for every request and every
JSON encoding, on a fresh response writer with status 200, the header
`Content-Type: application/json`, and as body the JSON of exactly the list
the fixture repository returns. -/
theorem C10_fixture_list_endpoints (r : Request) (md : dog.MockRepository)
    (mc : cat.MockRepository) (mb : breeder.MockRepository)
    (marshalErr : toolbox.JSONResponse → String)
    (jDogBreeds : List dog.Breed → String) (jDogs : List dog.Dog → String)
    (jCatBreeds : List cat.Breed → String) (jCats : List cat.Cat → String)
    (jBreeders : List breeder.Breeder → String) :
    ((dog.NewHandler (dog.NewService dog.NewMockRepository)).GetAllBreedsJSON
        jDogBreeds marshalErr NewRecorder r md).1 =
      { Header := [("Content-Type", "application/json")], Code := 200, wroteHeader := true,
        Body := jDogBreeds (md.AllBreeds).1 } ∧
    ((dog.NewHandler (dog.NewService dog.NewMockRepository)).GetAllDogsJSON
        jDogs marshalErr NewRecorder r md).1 =
      { Header := [("Content-Type", "application/json")], Code := 200, wroteHeader := true,
        Body := jDogs (md.AllDogs).1 } ∧
    ((cat.NewHandler (cat.NewService cat.NewMockRepository)).GetAllBreedsJSON
        jCatBreeds marshalErr NewRecorder r mc).1 =
      { Header := [("Content-Type", "application/json")], Code := 200, wroteHeader := true,
        Body := jCatBreeds (mc.AllBreeds).1 } ∧
    ((cat.NewHandler (cat.NewService cat.NewMockRepository)).GetAllCatsJSON
        jCats marshalErr NewRecorder r mc).1 =
      { Header := [("Content-Type", "application/json")], Code := 200, wroteHeader := true,
        Body := jCats (mc.AllCats).1 } ∧
    ((breeder.NewHandler (breeder.NewService breeder.NewMockRepository)).GetAllBreedersJSON
        jBreeders marshalErr NewRecorder r mb).1 =
      { Header := [("Content-Type", "application/json")], Code := 200, wroteHeader := true,
        Body := jBreeders (mb.AllBreeders).1 } := by
  refine ⟨?_, ?_, ?_, ?_, ?_⟩
  · simp [dog.Handler.GetAllBreedsJSON, dog.NewHandler, dog.NewService,
      dog.Service.GetAllBreeds, dog.NewMockRepository, dog.MockRepository.AllBreeds,
      toolbox.WriteJSON, ResponseWriter.HeaderSet, ResponseWriter.WriteHeader,
      ResponseWriter.Write, NewRecorder, StatusOK]
  · simp [dog.Handler.GetAllDogsJSON, dog.NewHandler, dog.NewService,
      dog.Service.GetAllDogs, dog.NewMockRepository, dog.MockRepository.AllDogs,
      toolbox.WriteJSON, ResponseWriter.HeaderSet, ResponseWriter.WriteHeader,
      ResponseWriter.Write, NewRecorder, StatusOK]
  · simp [cat.Handler.GetAllBreedsJSON, cat.NewHandler, cat.NewService,
      cat.Service.GetAllBreeds, cat.NewMockRepository, cat.MockRepository.AllBreeds,
      toolbox.WriteJSON, ResponseWriter.HeaderSet, ResponseWriter.WriteHeader,
      ResponseWriter.Write, NewRecorder, StatusOK]
  · simp [cat.Handler.GetAllCatsJSON, cat.NewHandler, cat.NewService,
      cat.Service.GetAllCats, cat.NewMockRepository, cat.MockRepository.AllCats,
      toolbox.WriteJSON, ResponseWriter.HeaderSet, ResponseWriter.WriteHeader,
      ResponseWriter.Write, NewRecorder, StatusOK]
  · simp [breeder.Handler.GetAllBreedersJSON, breeder.NewHandler, breeder.NewService,
      breeder.Service.GetAllBreeders, breeder.NewMockRepository,
      breeder.MockRepository.AllBreeders,
      toolbox.WriteJSON, ResponseWriter.HeaderSet, ResponseWriter.WriteHeader,
      ResponseWriter.Write, NewRecorder, StatusOK]

/-- C11: the error mapping of the five list handlers, over any repository and
any service result: when the service returns a non-nil error the response is
the JSON error envelope (with the message of the error) with status 500 and
the value takes no part in it; when the error is nil the response is the JSON
of the value with status 200; so the status is 500 exactly when the service
returned an error, and the body is that one response. -/
theorem C11_handler_error_mapping {σ : Type} (rd : dog.Repository σ) (rc : cat.Repository σ)
    (rb : breeder.Repository σ) (r : Request) (s : σ)
    (marshalErr : toolbox.JSONResponse → String)
    (jDogBreeds : List dog.Breed → String) (jDogs : List dog.Dog → String)
    (jCatBreeds : List cat.Breed → String) (jCats : List cat.Cat → String)
    (jBreeders : List breeder.Breeder → String) :
    (((dog.NewHandler (dog.NewService rd)).GetAllBreedsJSON jDogBreeds marshalErr
        NewRecorder r s).1 =
      (match (rd.AllBreeds s).1 with
       | (_, some err) =>
         jsonResponse 500 (marshalErr { Error := true, Message := err.Error })
       | (breeds, none) => jsonResponse 200 (jDogBreeds breeds)) ∧
     (((dog.NewHandler (dog.NewService rd)).GetAllBreedsJSON jDogBreeds marshalErr
        NewRecorder r s).1.Code = 500 ↔ (rd.AllBreeds s).1.2 ≠ none)) ∧
    (((dog.NewHandler (dog.NewService rd)).GetAllDogsJSON jDogs marshalErr
        NewRecorder r s).1 =
      (match (rd.AllDogs s).1 with
       | (_, some err) =>
         jsonResponse 500 (marshalErr { Error := true, Message := err.Error })
       | (dogs, none) => jsonResponse 200 (jDogs dogs)) ∧
     (((dog.NewHandler (dog.NewService rd)).GetAllDogsJSON jDogs marshalErr
        NewRecorder r s).1.Code = 500 ↔ (rd.AllDogs s).1.2 ≠ none)) ∧
    (((cat.NewHandler (cat.NewService rc)).GetAllBreedsJSON jCatBreeds marshalErr
        NewRecorder r s).1 =
      (match (rc.AllBreeds s).1 with
       | (_, some err) =>
         jsonResponse 500 (marshalErr { Error := true, Message := err.Error })
       | (breeds, none) => jsonResponse 200 (jCatBreeds breeds)) ∧
     (((cat.NewHandler (cat.NewService rc)).GetAllBreedsJSON jCatBreeds marshalErr
        NewRecorder r s).1.Code = 500 ↔ (rc.AllBreeds s).1.2 ≠ none)) ∧
    (((cat.NewHandler (cat.NewService rc)).GetAllCatsJSON jCats marshalErr
        NewRecorder r s).1 =
      (match (rc.AllCats s).1 with
       | (_, some err) =>
         jsonResponse 500 (marshalErr { Error := true, Message := err.Error })
       | (cats, none) => jsonResponse 200 (jCats cats)) ∧
     (((cat.NewHandler (cat.NewService rc)).GetAllCatsJSON jCats marshalErr
        NewRecorder r s).1.Code = 500 ↔ (rc.AllCats s).1.2 ≠ none)) ∧
    (((breeder.NewHandler (breeder.NewService rb)).GetAllBreedersJSON jBreeders marshalErr
        NewRecorder r s).1 =
      (match (rb.AllBreeders s).1 with
       | (_, some err) =>
         jsonResponse 500 (marshalErr { Error := true, Message := err.Error })
       | (breeders, none) => jsonResponse 200 (jBreeders breeders)) ∧
     (((breeder.NewHandler (breeder.NewService rb)).GetAllBreedersJSON jBreeders marshalErr
        NewRecorder r s).1.Code = 500 ↔ (rb.AllBreeders s).1.2 ≠ none)) := by
  refine ⟨?_, ?_, ?_, ?_, ?_⟩
  · rcases h : rd.AllBreeds s with ⟨⟨v, e⟩, s1⟩
    cases e <;>
      simp [dog.Handler.GetAllBreedsJSON, dog.NewHandler, dog.NewService,
        dog.Service.GetAllBreeds, h, toolbox.WriteJSON, toolbox.ErrorJSON,
        ResponseWriter.HeaderSet, ResponseWriter.WriteHeader, ResponseWriter.Write,
        NewRecorder, StatusOK, StatusInternalServerError, jsonResponse]
  · rcases h : rd.AllDogs s with ⟨⟨v, e⟩, s1⟩
    cases e <;>
      simp [dog.Handler.GetAllDogsJSON, dog.NewHandler, dog.NewService,
        dog.Service.GetAllDogs, h, toolbox.WriteJSON, toolbox.ErrorJSON,
        ResponseWriter.HeaderSet, ResponseWriter.WriteHeader, ResponseWriter.Write,
        NewRecorder, StatusOK, StatusInternalServerError, jsonResponse]
  · rcases h : rc.AllBreeds s with ⟨⟨v, e⟩, s1⟩
    cases e <;>
      simp [cat.Handler.GetAllBreedsJSON, cat.NewHandler, cat.NewService,
        cat.Service.GetAllBreeds, h, toolbox.WriteJSON, toolbox.ErrorJSON,
        ResponseWriter.HeaderSet, ResponseWriter.WriteHeader, ResponseWriter.Write,
        NewRecorder, StatusOK, StatusInternalServerError, jsonResponse]
  · rcases h : rc.AllCats s with ⟨⟨v, e⟩, s1⟩
    cases e <;>
      simp [cat.Handler.GetAllCatsJSON, cat.NewHandler, cat.NewService,
        cat.Service.GetAllCats, h, toolbox.WriteJSON, toolbox.ErrorJSON,
        ResponseWriter.HeaderSet, ResponseWriter.WriteHeader, ResponseWriter.Write,
        NewRecorder, StatusOK, StatusInternalServerError, jsonResponse]
  · rcases h : rb.AllBreeders s with ⟨⟨v, e⟩, s1⟩
    cases e <;>
      simp [breeder.Handler.GetAllBreedersJSON, breeder.NewHandler, breeder.NewService,
        breeder.Service.GetAllBreeders, h, toolbox.WriteJSON, toolbox.ErrorJSON,
        ResponseWriter.HeaderSet, ResponseWriter.WriteHeader, ResponseWriter.Write,
        NewRecorder, StatusOK, StatusInternalServerError, jsonResponse]

/-- C12: the relational inserts ignore the identifier of the input: for two
inputs that agree on every field other than `ID`, `InsertDog`, `InsertCat`
and `InsertBreeder` behave the same on every storage (so the statement and the
parameters the storage receives are the same); the statement is executed with
the non-identifier fields as parameters, in column order, and when the storage
reports a last inserted identifier, that identifier is returned. -/
theorem C12_relational_insert_ignores_id (db : DB) (d1 d2 : dog.Dog) (c1 c2 : cat.Cat)
    (b1 b2 : breeder.Breeder)
    (hd : { d1 with ID := d2.ID } = d2) (hc : { c1 with ID := c2.ID } = c2)
    (hb : { b1 with ID := b2.ID } = b2) :
    (dog.MySQLRepository.InsertDog ⟨db⟩ d1 = dog.MySQLRepository.InsertDog ⟨db⟩ d2 ∧
     cat.MySQLRepository.InsertCat ⟨db⟩ c1 = cat.MySQLRepository.InsertCat ⟨db⟩ c2 ∧
     breeder.MySQLRepository.InsertBreeder ⟨db⟩ b1 =
       breeder.MySQLRepository.InsertBreeder ⟨db⟩ b2) ∧
    (∀ result id,
      db.ExecContext dog.insertDogQuery
        [.str d1.DogName, .int d1.BreedID, .int d1.BreederID, .str d1.Color,
         .time d1.DateOfBirth, .int d1.SpayedOrNeutered, .str d1.Description,
         .int d1.Weight] = .ok result →
      result.LastInsertId = .ok id →
      dog.MySQLRepository.InsertDog ⟨db⟩ d1 = (id, none)) ∧
    (∀ result id,
      db.ExecContext cat.insertCatQuery
        [.str c1.CatName, .int c1.BreedID, .int c1.BreederID, .str c1.Color,
         .time c1.DateOfBirth, .int c1.SpayedOrNeutered, .str c1.Description,
         .int c1.Weight] = .ok result →
      result.LastInsertId = .ok id →
      cat.MySQLRepository.InsertCat ⟨db⟩ c1 = (id, none)) ∧
    (∀ result id,
      db.ExecContext breeder.insertBreederQuery
        [.str b1.BreederName, .str b1.Address, .str b1.City, .str b1.ProvState,
         .str b1.Country, .str b1.Zip, .str b1.Phone, .str b1.Email, .int b1.Active]
        = .ok result →
      result.LastInsertId = .ok id →
      breeder.MySQLRepository.InsertBreeder ⟨db⟩ b1 = (id, none)) := by
  refine ⟨⟨?_, ?_, ?_⟩, ?_, ?_, ?_⟩
  · rw [← hd]
    rfl
  · rw [← hc]
    rfl
  · rw [← hb]
    rfl
  · intro result id hexec hid
    simp only [dog.MySQLRepository.InsertDog, hexec, hid]
  · intro result id hexec hid
    simp only [cat.MySQLRepository.InsertCat, hexec, hid]
  · intro result id hexec hid
    simp only [breeder.MySQLRepository.InsertBreeder, hexec, hid]

/-- C12, at concrete inputs: on a storage that reports 42 as the last inserted
identifier, a dog, a cat and a breeder with identifier 5 and the same records
with identifier 77 are inserted alike, and the insert returns 42. -/
theorem C12_relational_insert_ignores_id_witness :
    (dog.MySQLRepository.InsertDog ⟨insertingDB 42⟩ { ID := 5, DogName := "Rex", Weight := 30 } =
      dog.MySQLRepository.InsertDog ⟨insertingDB 42⟩
        { ID := 77, DogName := "Rex", Weight := 30 }) ∧
    dog.MySQLRepository.InsertDog ⟨insertingDB 42⟩ { ID := 5, DogName := "Rex", Weight := 30 } =
      (42, none) ∧
    cat.MySQLRepository.InsertCat ⟨insertingDB 42⟩ { ID := 5, CatName := "Tom" } = (42, none) ∧
    breeder.MySQLRepository.InsertBreeder ⟨insertingDB 42⟩
      { ID := 5, BreederName := "Kennel", Address := "", City := "", ProvState := "",
        Country := "", Zip := "", Phone := "", Email := "", Active := 1 } = (42, none) :=
  have h := C12_relational_insert_ignores_id (insertingDB 42)
    { ID := 5, DogName := "Rex", Weight := 30 } { ID := 77, DogName := "Rex", Weight := 30 }
    { ID := 5, CatName := "Tom" } { ID := 77, CatName := "Tom" }
    { ID := 5, BreederName := "Kennel", Address := "", City := "", ProvState := "",
      Country := "", Zip := "", Phone := "", Email := "", Active := 1 }
    { ID := 77, BreederName := "Kennel", Address := "", City := "", ProvState := "",
      Country := "", Zip := "", Phone := "", Email := "", Active := 1 }
    rfl rfl rfl
  ⟨h.1.1, h.2.1 _ 42 rfl rfl, h.2.2.1 _ 42 rfl rfl, h.2.2.2 _ 42 rfl rfl⟩

/-- C13: the relational updates and deletes never report "not found": each
returns exactly the error of the execution of its statement, nil when the
execution succeeds, whether one row was affected or none; an update binds the
non-identifier fields in column order and the identifier of the input last. -/
theorem C13_relational_update_delete (db : DB) (d : dog.Dog) (c : cat.Cat)
    (b : breeder.Breeder) (id : Int) :
    (dog.MySQLRepository.UpdateDog ⟨db⟩ d =
      execError (db.ExecContext dog.updateDogQuery
        [.str d.DogName, .int d.BreedID, .int d.BreederID, .str d.Color,
         .time d.DateOfBirth, .int d.SpayedOrNeutered, .str d.Description,
         .int d.Weight, .int d.ID]) ∧
     cat.MySQLRepository.UpdateCat ⟨db⟩ c =
      execError (db.ExecContext cat.updateCatQuery
        [.str c.CatName, .int c.BreedID, .int c.BreederID, .str c.Color,
         .time c.DateOfBirth, .int c.SpayedOrNeutered, .str c.Description,
         .int c.Weight, .int c.ID]) ∧
     breeder.MySQLRepository.UpdateBreeder ⟨db⟩ b =
      execError (db.ExecContext breeder.updateBreederQuery
        [.str b.BreederName, .str b.Address, .str b.City, .str b.ProvState,
         .str b.Country, .str b.Zip, .str b.Phone, .str b.Email, .int b.Active,
         .int b.ID])) ∧
    (dog.MySQLRepository.DeleteDog ⟨db⟩ id =
      execError (db.ExecContext dog.deleteDogQuery [.int id]) ∧
     cat.MySQLRepository.DeleteCat ⟨db⟩ id =
      execError (db.ExecContext cat.deleteCatQuery [.int id]) ∧
     breeder.MySQLRepository.DeleteBreeder ⟨db⟩ id =
      execError (db.ExecContext breeder.deleteBreederQuery [.int id])) ∧
    (∀ (err : Error) (res : Except Error Result), execError res = some err ↔ res = .error err) ∧
    (∀ rowsAffected lastID,
      execError (.ok { LastInsertId := lastID, RowsAffected := rowsAffected }) = none) ∧
    (dog.MySQLRepository.UpdateDog ⟨emptyDB⟩ d = none ∧
     dog.MySQLRepository.DeleteDog ⟨emptyDB⟩ id = none ∧
     dog.MySQLRepository.DeleteDog ⟨insertingDB 1⟩ id = none ∧
     breeder.MySQLRepository.DeleteBreeder ⟨emptyDB⟩ id = none ∧
     cat.MySQLRepository.DeleteCat ⟨emptyDB⟩ id = none) := by
  refine ⟨⟨?_, ?_, ?_⟩, ⟨?_, ?_, ?_⟩, ?_, ?_, ⟨rfl, rfl, rfl, rfl, rfl⟩⟩
  · unfold dog.MySQLRepository.UpdateDog execError
    split <;> simp_all
  · unfold cat.MySQLRepository.UpdateCat execError
    split <;> simp_all
  · unfold breeder.MySQLRepository.UpdateBreeder execError
    split <;> simp_all
  · unfold dog.MySQLRepository.DeleteDog execError
    split <;> simp_all
  · unfold cat.MySQLRepository.DeleteCat execError
    split <;> simp_all
  · unfold breeder.MySQLRepository.DeleteBreeder execError
    split <;> simp_all
  · intro err res
    cases res with
    | error e => simp [execError]
    | ok r => simp [execError]
  · intro rowsAffected lastID
    rfl

/-- C14 (as stated, refuted): for a breed row with bounds 55 and 80 the
selected `average_weight` is 68, the decimal quotient 67.5 rounded by the
cast, while the truncated mean `floor((55 + 80) / 2)` is 67. -/
theorem C14_truncated_mean_counterexample :
    sqlMeanScaled 55 80 = 675000 ∧
    sqlAverageWeight 55 80 = some 68 ∧
    floorMean 55 80 = 67 ∧
    sqlAverageWeight 55 80 ≠ some (floorMean 55 80) :=
  ⟨by decide, by decide, by decide, by decide⟩

/-- C14 (amended): for every breed row whose bounds have a non-negative sum,
the selected `average_weight` is the mean of the bounds rounded half up,
`floor((low + high + 1) / 2)`; and for the bounds of every breed of the dog
and cat fixtures it is the fixture's `AverageWeight`. -/
theorem C14_relational_average_weight (low high : Int) (h : 0 ≤ low + high) :
    sqlAverageWeight low high = some (roundedMean low high) ∧
    (dog.MockRepository.AllBreeds ⟨⟩).1.map
        (fun b => sqlAverageWeight b.WeightLowLbs b.WeightHighLbs) =
      (dog.MockRepository.AllBreeds ⟨⟩).1.map (fun b => some b.AverageWeight) ∧
    (cat.MockRepository.AllBreeds ⟨⟩).1.map
        (fun b => sqlAverageWeight b.WeightLowLbs b.WeightHighLbs) =
      (cat.MockRepository.AllBreeds ⟨⟩).1.map (fun b => some b.AverageWeight) := by
  refine ⟨?_, by decide, by decide⟩
  unfold sqlAverageWeight sqlCastUnsigned sqlMeanScaled roundedMean
  have hneg : ¬ ((low + high) * 10000 / 2 < 0) := by omega
  rw [if_neg hneg, Int.fdiv_eq_ediv _ (by decide : (0 : Int) ≤ 2)]
  congr 1
  omega

/-- C14 (amended), at a concrete input: bounds 7 and 12 give 10. -/
theorem C14_relational_average_weight_witness :
    sqlAverageWeight 7 12 = some (roundedMean 7 12) ∧ roundedMean 7 12 = 10 :=
  ⟨(C14_relational_average_weight 7 12 (by decide)).1, by decide⟩

/-- C15 (the code at the failing input): when `sql.Open` hands out a fresh
pool and the ping succeeds, `initMySQLDB` returns the pool with 25 idle
connections and a lifetime of five minutes, and with the number of open
connections still unlimited, not 25; a failed open or a failed ping returns
nil with the error. -/
theorem C15_init_leaves_open_connections_unlimited (dsn : String) (err : Error) :
    initMySQLDB (fun _ _ => .ok Pool.fresh) (fun _ => none) dsn =
      (some { maxOpen := none, maxIdle := 25, maxLifetime := 300000000000 }, none) ∧
    (initMySQLDB (fun _ _ => .ok Pool.fresh) (fun _ => none) dsn).1.map (fun p => p.maxOpen) ≠
      some (some 25) ∧
    initMySQLDB (fun _ _ => .error err) (fun _ => none) dsn = (none, some err) ∧
    initMySQLDB (fun _ _ => .ok Pool.fresh) (fun _ => some err) dsn = (none, some err) ∧
    ((Pool.fresh.SetMaxOpenConns maxOpenDbConn).SetMaxIdleConns maxIdleDBConn).SetConnMaxLifetime
        maxDBlifetime =
      { maxOpen := some 25, maxIdle := 25, maxLifetime := 300000000000 } :=
  ⟨rfl, by simp [initMySQLDB, Pool.fresh, Pool.SetMaxIdleConns, Pool.SetConnMaxLifetime],
    rfl, rfl, rfl⟩

/-- C16: the relational list operations discard partial results: for
`AllBreeds` and `AllDogs` of the dog domain, `AllBreeds` and `AllCats` of the
cat domain and `AllBreeders`, a failed query, or a row whose scan fails after
any number of rows that scan, returns a nil slice with that error; when every
row scans the operation returns the scanned records, one per row in the order
of delivery, with the final error of the iteration. -/
theorem C16_relational_lists_discard_partial_results :
    DiscardsPartialResults dog.allBreedsQuery dog.scanBreed
      (fun db => dog.MySQLRepository.AllBreeds ⟨db⟩) ∧
    DiscardsPartialResults dog.allDogsQuery dog.scanDog
      (fun db => dog.MySQLRepository.AllDogs ⟨db⟩) ∧
    DiscardsPartialResults cat.allBreedsQuery cat.scanBreed
      (fun db => cat.MySQLRepository.AllBreeds ⟨db⟩) ∧
    DiscardsPartialResults cat.allCatsQuery cat.scanCat
      (fun db => cat.MySQLRepository.AllCats ⟨db⟩) ∧
    DiscardsPartialResults breeder.allBreedersQuery breeder.scanBreeder
      (fun db => breeder.MySQLRepository.AllBreeders ⟨db⟩) := by
  refine ⟨?_, ?_, ?_, ?_, ?_⟩ <;> apply listOp_discards <;> intro db
  · unfold dog.MySQLRepository.AllBreeds
    cases db.QueryContext dog.allBreedsQuery [] with
    | error e => rfl
    | ok rows =>
      dsimp only
      cases scanLoop dog.scanBreed rows.rows [] <;> rfl
  · unfold dog.MySQLRepository.AllDogs
    cases db.QueryContext dog.allDogsQuery [] with
    | error e => rfl
    | ok rows =>
      dsimp only
      cases scanLoop dog.scanDog rows.rows [] <;> rfl
  · unfold cat.MySQLRepository.AllBreeds
    cases db.QueryContext cat.allBreedsQuery [] with
    | error e => rfl
    | ok rows =>
      dsimp only
      cases scanLoop cat.scanBreed rows.rows [] <;> rfl
  · unfold cat.MySQLRepository.AllCats
    cases db.QueryContext cat.allCatsQuery [] with
    | error e => rfl
    | ok rows =>
      dsimp only
      cases scanLoop cat.scanCat rows.rows [] <;> rfl
  · unfold breeder.MySQLRepository.AllBreeders
    cases db.QueryContext breeder.allBreedersQuery [] with
    | error e => rfl
    | ok rows =>
      dsimp only
      cases scanLoop breeder.scanBreeder rows.rows [] <;> rfl

/-- C16, at concrete inputs: a breeder result set whose first row scans and
whose second row has a NULL name returns a nil slice with the scan error of
the second row; a result set of two rows that scan returns the two records in
the order of the rows with the final error of the iteration; a failed query
returns a nil slice with its error. -/
theorem C16_relational_lists_discard_partial_results_witness :
    breeder.MySQLRepository.AllBreeders
        ⟨rowsDB
          [[.int 2, .str "Furry", .str "a", .str "c", .str "WA", .str "USA", .str "z",
            .str "p", .str "e", .int 1],
           [.int 1, .null, .str "a", .str "c", .str "OR", .str "USA", .str "z",
            .str "p", .str "e", .int 1]] none⟩ =
      ([], some (.other "sql: Scan error on column index 1")) ∧
    breeder.MySQLRepository.AllBreeders
        ⟨rowsDB
          [[.int 2, .str "Furry", .str "a", .str "c", .str "WA", .str "USA", .str "z",
            .str "p", .str "e", .int 1],
           [.int 1, .str "Happy", .str "a", .str "c", .str "OR", .str "USA", .str "z",
            .str "p", .str "e", .int 1]] (some (.other "bad connection"))⟩ =
      ([{ ID := 2, BreederName := "Furry", Address := "a", City := "c", ProvState := "WA",
          Country := "USA", Zip := "z", Phone := "p", Email := "e", Active := 1 },
        { ID := 1, BreederName := "Happy", Address := "a", City := "c", ProvState := "OR",
          Country := "USA", Zip := "z", Phone := "p", Email := "e", Active := 1 }],
       some (.other "bad connection")) ∧
    breeder.MySQLRepository.AllBreeders ⟨failingDB (.other "timeout")⟩ =
      ([], some (.other "timeout")) :=
  ⟨(C16_relational_lists_discard_partial_results.2.2.2.2 _).2.1 _
      [[.int 2, .str "Furry", .str "a", .str "c", .str "WA", .str "USA", .str "z",
        .str "p", .str "e", .int 1]]
      [.int 1, .null, .str "a", .str "c", .str "OR", .str "USA", .str "z",
        .str "p", .str "e", .int 1] []
      [{ ID := 2, BreederName := "Furry", Address := "a", City := "c", ProvState := "WA",
         Country := "USA", Zip := "z", Phone := "p", Email := "e", Active := 1 }]
      (.other "sql: Scan error on column index 1") rfl rfl rfl rfl,
   (C16_relational_lists_discard_partial_results.2.2.2.2 _).2.2 _
      [{ ID := 2, BreederName := "Furry", Address := "a", City := "c", ProvState := "WA",
         Country := "USA", Zip := "z", Phone := "p", Email := "e", Active := 1 },
       { ID := 1, BreederName := "Happy", Address := "a", City := "c", ProvState := "OR",
         Country := "USA", Zip := "z", Phone := "p", Email := "e", Active := 1 }] rfl (by rfl),
   (C16_relational_lists_discard_partial_results.2.2.2.2 _).1 _ rfl⟩

/-- C17: the fixture insert-then-get does not round-trip: in each of the five
fixture lists the identifiers are pairwise distinct, positive and different
from 999, and for every entity (nil included) the get-by-id of the identifier
the fixture insert returns gives nil with a nil error. -/
theorem C17_fixture_insert_then_get (md : dog.MockRepository) (mc : cat.MockRepository)
    (mb : breeder.MockRepository) (d : Option dog.Dog) (c : Option cat.Cat)
    (b : Option breeder.Breeder) :
    (((md.AllBreeds).1.map (fun x => x.ID)).Nodup ∧
     ((md.AllDogs).1.map (fun x => x.ID)).Nodup ∧
     ((mc.AllBreeds).1.map (fun x => x.ID)).Nodup ∧
     ((mc.AllCats).1.map (fun x => x.ID)).Nodup ∧
     ((mb.AllBreeders).1.map (fun x => x.ID)).Nodup) ∧
    (((md.AllBreeds).1.map (fun x => x.ID)).all (fun i => decide (0 < i ∧ i ≠ 999)) = true ∧
     ((md.AllDogs).1.map (fun x => x.ID)).all (fun i => decide (0 < i ∧ i ≠ 999)) = true ∧
     ((mc.AllBreeds).1.map (fun x => x.ID)).all (fun i => decide (0 < i ∧ i ≠ 999)) = true ∧
     ((mc.AllCats).1.map (fun x => x.ID)).all (fun i => decide (0 < i ∧ i ≠ 999)) = true ∧
     ((mb.AllBreeders).1.map (fun x => x.ID)).all (fun i => decide (0 < i ∧ i ≠ 999)) = true) ∧
    ((md.InsertDog d).1 = 999 ∧ md.GetDogByID (md.InsertDog d).1 = (none, none)) ∧
    ((mc.InsertCat c).1 = 999 ∧ mc.GetCatByID (mc.InsertCat c).1 = (none, none)) ∧
    ((mb.InsertBreeder b).1 = 999 ∧
      mb.GetBreederByID (mb.InsertBreeder b).1 = (none, none)) := by
  refine ⟨⟨?_, ?_, ?_, ?_, ?_⟩, ⟨rfl, rfl, rfl, rfl, rfl⟩, ⟨rfl, rfl⟩, ⟨rfl, rfl⟩, ⟨rfl, rfl⟩⟩
  · show ([1, 2, 3] : List Int).Nodup
    decide
  · show ([1, 2] : List Int).Nodup
    decide
  · show ([1, 2] : List Int).Nodup
    decide
  · show ([1, 2] : List Int).Nodup
    decide
  · show ([1, 2] : List Int).Nodup
    decide

/-- C18: the species dispatch of the pets factory: `NewPetFromAbstractFactory`
returns a non-nil animal with a nil error exactly when the species is "dog" or
"cat"; for "dog" the animal shows "this animal is a dog" and wraps a
zero-valued dog, for "cat" it shows "this animal is a cat" and wraps a
zero-valued cat; for every other string it returns nil and the error
"invalid species supplied". -/
theorem C18_pets_factory_dispatch (species : String) :
    ((∃ a, pets.NewPetFromAbstractFactory species = (some a, none)) ↔
      (species = "dog" ∨ species = "cat")) ∧
    pets.NewPetFromAbstractFactory "dog" =
      (some (.DogFromFactory (some
        { ID := 0, DogName := "", BreedID := 0, BreederID := 0, Color := "",
          DateOfBirth := Time.zero, SpayedOrNeutered := 0, Description := "", Weight := 0,
          Breed := dog.Breed.zero })), none) ∧
    (pets.NewPetFromAbstractFactory "dog").1.map pets.AnimalInterface.Show =
      some "this animal is a dog" ∧
    pets.NewPetFromAbstractFactory "cat" =
      (some (.CatFromFactory (some
        { ID := 0, CatName := "", BreedID := 0, BreederID := 0, Color := "",
          DateOfBirth := Time.zero, SpayedOrNeutered := 0, Description := "", Weight := 0 })),
       none) ∧
    (pets.NewPetFromAbstractFactory "cat").1.map pets.AnimalInterface.Show =
      some "this animal is a cat" ∧
    (species ≠ "dog" → species ≠ "cat" →
      pets.NewPetFromAbstractFactory species = (none, some (.other "invalid species supplied")) ∧
      (pets.NewPetFromAbstractFactory species).2.map Error.Error =
        some "invalid species supplied") := by
  refine ⟨?_, ?_, ?_, ?_, ?_, ?_⟩
  · constructor
    · rintro ⟨a, ha⟩
      by_cases h1 : species = "dog"
      · exact Or.inl h1
      · by_cases h2 : species = "cat"
        · exact Or.inr h2
        · simp [pets.NewPetFromAbstractFactory, h1, h2] at ha
    · rintro (h | h)
      · subst h
        exact ⟨_, rfl⟩
      · subst h
        exact ⟨pets.CatAbstractFactory.newPet ⟨⟩, by simp [pets.NewPetFromAbstractFactory]⟩
  · rfl
  · rfl
  · simp [pets.NewPetFromAbstractFactory, pets.CatAbstractFactory.newPet]
  · simp [pets.NewPetFromAbstractFactory, pets.CatAbstractFactory.newPet,
      pets.AnimalInterface.Show]
  · intro h1 h2
    simp [pets.NewPetFromAbstractFactory, h1, h2, Error.Error]

/-- C18, at concrete inputs: the dispatch is case-sensitive and does not trim:
"Dog" and " cat" are invalid species. -/
theorem C18_pets_factory_dispatch_witness :
    pets.NewPetFromAbstractFactory "Dog" =
      (none, some (.other "invalid species supplied")) ∧
    pets.NewPetFromAbstractFactory " cat" =
      (none, some (.other "invalid species supplied")) :=
  ⟨((C18_pets_factory_dispatch "Dog").2.2.2.2.2 (by decide) (by decide)).1,
   ((C18_pets_factory_dispatch " cat").2.2.2.2.2 (by decide) (by decide)).1⟩
